import Mathlib

/-!
# Verification of `logger.h` (danisilveira/logger)

A shallow embedding of the single-header C logging library and proofs about its
construction, sink registration and dispatch.

Modelling conventions
* C pointers that the code compares against `NULL` are `Option` values (`none` is `NULL`).
* Fixed-size C arrays `T a[N]` are total functions `Fin N → T`.
* `for (int i = 0; i < N; i++)` loops are recursions over `List.finRange N`.
* Calls through a sink's function pointer are effects of unknown code; `logger_log`
  therefore returns the ordered list of calls it performs (`Call`), each with the
  entry passed by value. The field `Call.slot` is the loop index of the call.
* libc (`fopen`, `strftime`, `vfprintf`, `localtime`) is not part of the repository and is
  taken as a parameter.
* `LogEntry.time` is the `struct tm` that the pointer `entry.time` targets, which is the static
  buffer of `localtime`. `logger_log` gives it as `localtime` stored it; `logger_log_tm`
  follows the buffer through the sink calls, where application code may overwrite it.
-/

namespace LogLib

/-! ## Constants (logger.h 11-19) -/

abbrev LOG_MAX_ATTRIBUTES : Nat := 8

abbrev LOG_MAX_CUSTOM_CALLBACKS : Nat := 8

abbrev LOG_MAX_CALLBACKS : Nat := LOG_MAX_CUSTOM_CALLBACKS + 2

/-! ## Data model (logger.h 21-67) -/

/-- The enum `LogLevel`; the enumerators have the values 0 to 4. -/
inductive LogLevel where
  | DEBUG
  | INFO
  | WARNING
  | ERROR
  | FATAL
  deriving DecidableEq, Repr

namespace LogLevel

/-- Integer value of an enumerator. -/
def toNat : LogLevel → Nat
  | DEBUG => 0
  | INFO => 1
  | WARNING => 2
  | ERROR => 3
  | FATAL => 4

instance : LT LogLevel := ⟨fun a b => a.toNat < b.toNat⟩

instance : LE LogLevel := ⟨fun a b => a.toNat ≤ b.toNat⟩

instance (a b : LogLevel) : Decidable (a < b) := inferInstanceAs (Decidable (a.toNat < b.toNat))

instance (a b : LogLevel) : Decidable (a ≤ b) := inferInstanceAs (Decidable (a.toNat ≤ b.toNat))

end LogLevel

/-- A stdio stream; a `FILE *` is an `Option FILE`. -/
inductive FILE where
  | stdout
  | stderr
  | opened (id : Nat)
  deriving DecidableEq, Repr

/-- The struct `LogAttr`: two nullable C strings. -/
structure LogAttr where
  key : Option String
  value : Option String
  deriving DecidableEq, Repr

/-- One variadic argument. -/
inductive VaArg where
  | int (i : Int)
  | str (s : String)
  deriving DecidableEq, Repr

abbrev VaList := List VaArg

/-- The broken-down time a `struct tm *` points to. -/
structure Tm where
  tm_sec : Int
  tm_min : Int
  tm_hour : Int
  tm_mday : Int
  tm_mon : Int
  tm_year : Int
  deriving DecidableEq, Repr

/-- The struct `LogEntry`. The field `time` holds what the pointer `time` of the source
targets. -/
structure LogEntry where
  fmt : String
  args : VaList
  fd : Option FILE
  time : Tm
  level : LogLevel
  file : String
  line : Int
  attrs : Fin LOG_MAX_ATTRIBUTES → LogAttr

/-- Values of type `LogCallbackFn`: the addresses of the two built-in renderers and of
functions defined by the application. -/
inductive LogCallbackFn where
  | logger_write_to_file_callback_fn
  | logger_write_to_terminal_callback_fn
  | custom (id : Nat)
  deriving DecidableEq, Repr

/-- The struct `LogCallback`; `fn = none` is the null function pointer. -/
structure LogCallback where
  fn : Option LogCallbackFn
  level : LogLevel
  fd : Option FILE
  deriving DecidableEq, Repr

/-- The struct `LogConfig`. -/
structure LogConfig where
  level : LogLevel
  attrs : Fin LOG_MAX_ATTRIBUTES → LogAttr
  callbacks : Fin LOG_MAX_CUSTOM_CALLBACKS → LogCallback
  filename : Option String
  quiet : Bool

/-- The struct `Logger`. -/
structure Logger where
  level : LogLevel
  attrs : Fin LOG_MAX_ATTRIBUTES → LogAttr
  callbacks : Fin LOG_MAX_CALLBACKS → LogCallback

/-- A zero-initialised `LogAttr`. -/
def LogAttr.zero : LogAttr := ⟨none, none⟩

/-- A zero-initialised `LogCallback` (the enumerator with value 0 is `DEBUG`). -/
def LogCallback.zero : LogCallback := ⟨none, LogLevel.DEBUG, none⟩

/-! ## Sink registration (logger.h 132-144) -/

/-- The loop of `logger_add_callback` over the remaining indices. -/
def logger_add_callback_loop (logger : Logger) (fn : Option LogCallbackFn) (level : LogLevel)
    (fd : Option FILE) : List (Fin LOG_MAX_CALLBACKS) → Logger
  | [] => logger
  | i :: rest =>
    if (logger.callbacks i).fn = none then
      { logger with callbacks := Function.update logger.callbacks i ⟨fn, level, fd⟩ }
    else
      logger_add_callback_loop logger fn level fd rest

/-- The function `logger_add_callback`. -/
def logger_add_callback (logger : Logger) (fn : Option LogCallbackFn) (level : LogLevel)
    (fd : Option FILE) : Logger :=
  logger_add_callback_loop logger fn level fd (List.finRange LOG_MAX_CALLBACKS)

/-! ## Construction (logger.h 96-130) -/

/-- The statement `memcpy(logger.callbacks + 2, config.callbacks, sizeof(config.callbacks))`. -/
def memcpy_callbacks (dst : Fin LOG_MAX_CALLBACKS → LogCallback)
    (src : Fin LOG_MAX_CUSTOM_CALLBACKS → LogCallback) : Fin LOG_MAX_CALLBACKS → LogCallback :=
  fun i => if h : 2 ≤ i.val then src ⟨i.val - 2, by have h2 : i.val < 8 + 2 := i.isLt; show i.val - 2 < 8; omega⟩ else dst i

/-- The function `create_logger`. The parameter `fopen` is the result of
`fopen(name, "a")`; a failed `assert` aborts the program and is the result `none`. -/
def create_logger (fopen : String → Option FILE) (config : LogConfig) : Option Logger := do
  let logger : Logger :=
    { level := config.level, attrs := fun _ => LogAttr.zero, callbacks := fun _ => LogCallback.zero }
  let logger := { logger with attrs := config.attrs }
  let logger ←
    match config.filename with
    | some name =>
      match fopen name with
      | none => none
      | some fd =>
        some (logger_add_callback logger (some LogCallbackFn.logger_write_to_file_callback_fn)
          logger.level (some fd))
    | none => some logger
  let logger :=
    if !config.quiet then
      logger_add_callback logger (some LogCallbackFn.logger_write_to_terminal_callback_fn)
        logger.level (some FILE.stdout)
    else logger
  let logger := { logger with callbacks := memcpy_callbacks logger.callbacks config.callbacks }
  return logger

/-- The function `create_default_logger`; members without initialiser are zero. -/
def create_default_logger : Logger :=
  { level := LogLevel.DEBUG
    attrs := fun _ => LogAttr.zero
    callbacks := fun i =>
      if i.val = 0 then
        { fd := some FILE.stdout
          fn := some LogCallbackFn.logger_write_to_terminal_callback_fn
          level := LogLevel.DEBUG }
      else LogCallback.zero }

/-! ## Dispatch (logger.h 208-237) -/

/-- One call `callback.fn(entry)` made by `logger_log`. -/
structure Call where
  slot : Fin LOG_MAX_CALLBACKS
  fn : LogCallbackFn
  entry : LogEntry

/-- The loop of `logger_log` over the remaining indices, with the local `entry`. -/
def logger_log_loop (logger : Logger) (args : VaList) :
    List (Fin LOG_MAX_CALLBACKS) → LogEntry → List Call
  | [], _ => []
  | i :: rest, entry =>
    let callback := logger.callbacks i
    match callback.fn with
    | none => logger_log_loop logger args rest entry
    | some f =>
      if entry.level < callback.level then
        logger_log_loop logger args rest entry
      else
        let entry := { entry with fd := callback.fd }
        let entry := { entry with args := args }
        ⟨i, f, entry⟩ :: logger_log_loop logger args rest entry

/-- The function `logger_log`. The parameter `now` is the value of `localtime(&t)`;
the result is the list of sink calls in the order they are made. -/
def logger_log (now : Tm) (logger : Logger) (level : LogLevel) (file : String) (line : Int)
    (fmt : String) (args : VaList) : List Call :=
  let entry : LogEntry :=
    { fmt := fmt, args := [], fd := none, time := now, level := level, file := file, line := line,
      attrs := fun _ => LogAttr.zero }
  let entry := { entry with attrs := logger.attrs }
  logger_log_loop logger args (List.finRange LOG_MAX_CALLBACKS) entry

/-! ## Dispatch with the static buffer of `localtime` (logger.h 39, 214, 234) -/

/-- The libc functions the renderers call. `strftime format tm` is the text the format
produces for `tm`; `vfprintf fmt args` is the text `vfprintf` writes. -/
structure Libc where
  strftime : String → Tm → String
  vfprintf : String → VaList → String

/-- The C string in `buf` after `buf[strftime(buf, max, format, tm)] = 0`: the formatted
time when it fits with its terminator, otherwise the empty string. -/
def strftime_buf (libc : Libc) (max : Nat) (format : String) (tm : Tm) : String :=
  if (libc.strftime format tm).utf8ByteSize < max then libc.strftime format tm else ""

/-- The table `log_level_to_string`, indexed by level. -/
def log_level_to_string : LogLevel → String
  | LogLevel.DEBUG => "DEBUG"
  | LogLevel.INFO => "INFO"
  | LogLevel.WARNING => "WARN"
  | LogLevel.ERROR => "ERROR"
  | LogLevel.FATAL => "FATAL"

/-- The table `log_level_to_color`, indexed by level. -/
def log_level_to_color : LogLevel → String
  | LogLevel.DEBUG => "\x1b[94m"
  | LogLevel.INFO => "\x1b[32m"
  | LogLevel.WARNING => "\x1b[33m"
  | LogLevel.ERROR => "\x1b[31m"
  | LogLevel.FATAL => "\x1b[31m"

/-- The conversion `%-5s`: left-justified in a field of at least 5 characters. -/
def fmt_s_left5 (s : String) : String :=
  s ++ String.mk (List.replicate (5 - s.length) ' ')

/-- The conversion `%d`. -/
def fmt_d (n : Int) : String := toString n

/-- The attribute loop of the renderers; `color` selects the `LOG_USE_COLOR` branch. -/
def write_attrs (color : Bool) (attrs : Fin LOG_MAX_ATTRIBUTES → LogAttr) :
    List (Fin LOG_MAX_ATTRIBUTES) → String
  | [] => ""
  | i :: rest =>
    match (attrs i).key, (attrs i).value with
    | some key, some value =>
      (if color then " \x1b[90m" ++ key ++ "=" ++ value ++ "\x1b[0m"
        else " " ++ key ++ "=" ++ value) ++ write_attrs color attrs rest
    | _, _ => write_attrs color attrs rest

/-- The function `logger_write_to_file_callback_fn`: the text written to `entry.fd`. -/
def logger_write_to_file_callback_fn (libc : Libc) (entry : LogEntry) : String :=
  let buf := strftime_buf libc 64 "%Y-%m-%d %H:%M:%S" entry.time
  (buf ++ " " ++ fmt_s_left5 (log_level_to_string entry.level) ++ " " ++ entry.file ++ ":" ++
      fmt_d entry.line ++ " ") ++
    libc.vfprintf entry.fmt entry.args ++
    write_attrs false entry.attrs (List.finRange LOG_MAX_ATTRIBUTES) ++
    "\n"

/-- The function `logger_write_to_terminal_callback_fn`: the text written to `entry.fd`;
`color` tells whether `LOG_USE_COLOR` is defined. -/
def logger_write_to_terminal_callback_fn (libc : Libc) (color : Bool) (entry : LogEntry) :
    String :=
  let buf := strftime_buf libc 16 "%H:%M:%S" entry.time
  (if color then
      buf ++ " " ++ log_level_to_color entry.level ++
        fmt_s_left5 (log_level_to_string entry.level) ++ "\x1b[0m" ++ " " ++ "\x1b[90m" ++
        entry.file ++ ":" ++ fmt_d entry.line ++ "\x1b[0m" ++ " "
    else
      buf ++ " " ++ fmt_s_left5 (log_level_to_string entry.level) ++ " " ++ entry.file ++ ":" ++
        fmt_d entry.line ++ " ") ++
    libc.vfprintf entry.fmt entry.args ++
    write_attrs color entry.attrs (List.finRange LOG_MAX_ATTRIBUTES) ++
    "\n"

/-! ## Derived notions used in the statements -/

/-- The entry `logger_log` passes to the sink stored in `callback`. -/
def entry_for (now : Tm) (logger : Logger) (level : LogLevel) (file : String) (line : Int)
    (fmt : String) (args : VaList) (callback : LogCallback) : LogEntry :=
  { fmt := fmt, args := args, fd := callback.fd, time := now, level := level, file := file,
    line := line, attrs := logger.attrs }

/-- The call made in iteration `i` of the dispatch loop, if any. -/
def call_at (logger : Logger) (args : VaList) (entry : LogEntry) (i : Fin LOG_MAX_CALLBACKS) :
    Option Call :=
  match (logger.callbacks i).fn with
  | none => none
  | some f =>
    if entry.level < (logger.callbacks i).level then none
    else some ⟨i, f, { entry with fd := (logger.callbacks i).fd, args := args }⟩

/-- The occupied sinks of a logger (slots with a render function bound), in slot order. -/
def Logger.sinks (logger : Logger) : List LogCallback :=
  (List.ofFn logger.callbacks).filter (fun c => c.fn.isSome)

/-- The implicit file sink `create_logger` registers for an opened file. -/
def file_sink (level : LogLevel) (fd : Option FILE) : LogCallback :=
  ⟨some LogCallbackFn.logger_write_to_file_callback_fn, level, fd⟩

/-- The implicit terminal sink on `stdout`. -/
def terminal_sink (level : LogLevel) : LogCallback :=
  ⟨some LogCallbackFn.logger_write_to_terminal_callback_fn, level, some FILE.stdout⟩

/-- The logger `create_logger` starts from: the level of the config, everything else zero,
then the attributes copied. -/
def initial_logger (config : LogConfig) : Logger :=
  { level := config.level, attrs := config.attrs, callbacks := fun _ => LogCallback.zero }

/-- The occupied slots of the logger are contiguous from slot 0: no empty slot lies below
an occupied one. -/
def Logger.contiguous (logger : Logger) : Prop :=
  ∀ i j : Fin LOG_MAX_CALLBACKS, i ≤ j → (logger.callbacks j).fn ≠ none →
    (logger.callbacks i).fn ≠ none

/-- A sequence of `logger_add_callback` calls, one per descriptor of `adds`, in order. -/
def add_callbacks (logger : Logger) (adds : List LogCallback) : Logger :=
  adds.foldl (fun lg c => logger_add_callback lg c.fn c.level c.fd) logger

/-- The render function and handle of each call, in call order. -/
def invoked (calls : List Call) : List (Option LogCallbackFn × Option FILE) :=
  calls.map (fun c => (some c.fn, c.entry.fd))

/-- The sinks of `registered` (a list in registration order, cut at the capacity of the sink
array) that accept an event of `level`, as render function and handle. -/
def firing_in_order (registered : List LogCallback) (level : LogLevel) :
    List (Option LogCallbackFn × Option FILE) :=
  (((registered.take LOG_MAX_CALLBACKS).filter (fun s => decide (s.level ≤ level))).map
    (fun s => (s.fn, s.fd)))

/-- Exactly the slots below `k` are occupied. -/
def occupied_upto (logger : Logger) (k : Nat) : Prop :=
  ∀ i : Fin LOG_MAX_CALLBACKS, (logger.callbacks i).fn ≠ none ↔ i.val < k

/-- The sinks `create_logger` registers, in the order file sink, terminal sink, custom sinks
of the config in config order. -/
def config_registration (fopen : String → Option FILE) (config : LogConfig) : List LogCallback :=
  (match config.filename with
    | some name =>
      [⟨some LogCallbackFn.logger_write_to_file_callback_fn, config.level, fopen name⟩]
    | none => []) ++
  (if config.quiet then []
    else [⟨some LogCallbackFn.logger_write_to_terminal_callback_fn, config.level,
      some FILE.stdout⟩]) ++
  (List.ofFn config.callbacks).filter (fun c => c.fn.isSome)

/-- No empty descriptor of the config precedes one with a render function. -/
def LogConfig.gapless (config : LogConfig) : Prop :=
  ∀ i j : Fin LOG_MAX_CUSTOM_CALLBACKS, i ≤ j → (config.callbacks j).fn ≠ none →
    (config.callbacks i).fn ≠ none

/-- A logger is full when every slot has a render function bound. -/
def Logger.full (logger : Logger) : Prop := ∀ i, (logger.callbacks i).fn ≠ none

/-! ## Concrete inputs used by the witnesses and scenarios -/

/-- A logger with the file renderer bound in all ten slots. -/
def full_example : Logger :=
  { level := LogLevel.INFO
    attrs := fun _ => LogAttr.zero
    callbacks := fun _ =>
      ⟨some LogCallbackFn.logger_write_to_file_callback_fn, LogLevel.INFO, some FILE.stderr⟩ }

/-- A config with a file, the terminal and one custom sink in the second descriptor. -/
def sinks_example : LogConfig :=
  { level := LogLevel.INFO
    attrs := fun _ => LogAttr.zero
    callbacks := fun i =>
      if i.val = 1 then ⟨some (LogCallbackFn.custom 5), LogLevel.ERROR, some FILE.stderr⟩
      else LogCallback.zero
    filename := some "app.log"
    quiet := false }

/-- A quiet config without file, with one attribute. -/
def attrs_example : LogConfig :=
  { level := LogLevel.WARNING
    attrs := fun k => if k.val = 0 then ⟨some "machine", some "HOSTNAME-01"⟩ else LogAttr.zero
    callbacks := fun _ => LogCallback.zero
    filename := none
    quiet := true }

/-- The config of the scenario of C9: file `logs.log`, quiet, floor `WARNING`, and one custom
sink `f` with threshold `ERROR` and handle `h` in descriptor `k`, the others zero. -/
def scenario_config (attrs : Fin LOG_MAX_ATTRIBUTES → LogAttr) (k : Fin LOG_MAX_CUSTOM_CALLBACKS)
    (f : LogCallbackFn) (h : Option FILE) : LogConfig :=
  { level := LogLevel.WARNING
    attrs := attrs
    callbacks := fun i => if i = k then ⟨some f, LogLevel.ERROR, h⟩ else LogCallback.zero
    filename := some "logs.log"
    quiet := true }

/-- A quiet config without file whose first descriptor is a custom sink. -/
def order_example : LogConfig :=
  { level := LogLevel.DEBUG
    attrs := fun _ => LogAttr.zero
    callbacks := fun i =>
      if i.val = 0 then ⟨some (LogCallbackFn.custom 1), LogLevel.DEBUG, some FILE.stderr⟩
      else LogCallback.zero
    filename := none
    quiet := true }

/-- The attribute array of the example program: `machine=HOSTNAME-01` in slot 0, the other
slots zero. -/
def machine_attrs : Fin LOG_MAX_ATTRIBUTES → LogAttr :=
  fun k => if k.val = 0 then ⟨some "machine", some "HOSTNAME-01"⟩ else LogAttr.zero

/-- The default logger with the attribute `machine=HOSTNAME-01`. -/
def machine_logger : Logger := { create_default_logger with attrs := machine_attrs }

/-- A quiet config without file, floor `ERROR`, whose first descriptor is a custom sink with
threshold `DEBUG`. -/
def floor_example : LogConfig :=
  { level := LogLevel.ERROR
    attrs := fun _ => LogAttr.zero
    callbacks := fun i =>
      if i.val = 0 then ⟨some (LogCallbackFn.custom 1), LogLevel.DEBUG, some FILE.stderr⟩
      else LogCallback.zero
    filename := none
    quiet := true }

/-- A libc whose `strftime` gives a fixed time of day and whose `vfprintf` prints the format
verbatim. -/
def libc_example : Libc := ⟨fun _ _ => "12:00:00", fun fmt _ => fmt⟩

/-- One `logger_log` call of the application: the time read and the arguments. -/
structure LogEvent where
  now : Tm
  level : LogLevel
  file : String
  line : Int
  fmt : String
  args : VaList

/-- Successive `logger_log` calls on one logger variable, which C passes by value to each
call; the result is all sink calls in order. -/
def logger_log_all (logger : Logger) : List LogEvent → List Call
  | [] => []
  | e :: rest =>
    logger_log e.now logger e.level e.file e.line e.fmt e.args ++ logger_log_all logger rest

/-- The sink call of `machine_logger` for an `INFO` event of the example program. -/
def machine_info_call : Call :=
  ⟨0, LogCallbackFn.logger_write_to_terminal_callback_fn,
    entry_for ⟨0, 0, 12, 1, 0, 124⟩ machine_logger LogLevel.INFO "example.c" 9 "Info log" []
      ⟨some LogCallbackFn.logger_write_to_terminal_callback_fn, LogLevel.DEBUG,
        some FILE.stdout⟩⟩

/-- The sink call of `machine_logger` for a later `WARNING` event. -/
def machine_warn_call : Call :=
  ⟨0, LogCallbackFn.logger_write_to_terminal_callback_fn,
    entry_for ⟨1, 0, 12, 1, 0, 124⟩ machine_logger LogLevel.WARNING "example.c" 10 "Warn log" []
      ⟨some LogCallbackFn.logger_write_to_terminal_callback_fn, LogLevel.DEBUG,
        some FILE.stdout⟩⟩

/-- Two successive events of the example program. -/
def machine_events : List LogEvent :=
  [⟨⟨0, 0, 12, 1, 0, 124⟩, LogLevel.INFO, "example.c", 9, "Info log", []⟩,
    ⟨⟨1, 0, 12, 1, 0, 124⟩, LogLevel.WARNING, "example.c", 10, "Warn log", []⟩]

/-- The default logger with a custom sink at `ERROR` on `stderr` added. -/
def pair_logger : Logger :=
  logger_add_callback create_default_logger (some (LogCallbackFn.custom 2)) LogLevel.ERROR
    (some FILE.stderr)

/-- The first sink call of `pair_logger` for an `ERROR` event. -/
def pair_call_terminal : Call :=
  ⟨0, LogCallbackFn.logger_write_to_terminal_callback_fn,
    entry_for ⟨0, 0, 12, 1, 0, 124⟩ pair_logger LogLevel.ERROR "example.c" 11 "Error log" []
      ⟨some LogCallbackFn.logger_write_to_terminal_callback_fn, LogLevel.DEBUG,
        some FILE.stdout⟩⟩

/-- The second sink call of `pair_logger` for an `ERROR` event. -/
def pair_call_custom : Call :=
  ⟨1, LogCallbackFn.custom 2,
    entry_for ⟨0, 0, 12, 1, 0, 124⟩ pair_logger LogLevel.ERROR "example.c" 11 "Error log" []
      ⟨some (LogCallbackFn.custom 2), LogLevel.ERROR, some FILE.stderr⟩⟩

/-- Follows the spec: the level name left-justified and padded with spaces to 5 characters. -/
def spec_level_token : LogLevel → String
  | LogLevel.DEBUG => "DEBUG"
  | LogLevel.INFO => "INFO "
  | LogLevel.WARNING => "WARN "
  | LogLevel.ERROR => "ERROR"
  | LogLevel.FATAL => "FATAL"

/-- Follows the spec: ` key=value` for each attribute, in order, whose key and value are both
set; attributes with an unset key or value contribute nothing. -/
def spec_attr_text : List LogAttr → String
  | [] => ""
  | a :: rest =>
    match a.key, a.value with
    | some key, some value => " " ++ key ++ "=" ++ value ++ spec_attr_text rest
    | _, _ => spec_attr_text rest

/-- Follows the spec: the line `<timestamp> <LEVEL> <file>:<line> <message>[ key=value]*`
ended by a newline. -/
def spec_line (timestamp : String) (level : LogLevel) (file : String) (line : Int)
    (message : String) (attrs : Fin LOG_MAX_ATTRIBUTES → LogAttr) : String :=
  timestamp ++ " " ++ spec_level_token level ++ " " ++ file ++ ":" ++ toString line ++ " " ++
    message ++ spec_attr_text (List.ofFn attrs) ++ "\n"

/-! ## Lemmas on the dispatch loop -/

theorem logger_log_loop_eq_filterMap (logger : Logger) (args : VaList)
    (is : List (Fin LOG_MAX_CALLBACKS)) (entry : LogEntry) :
    logger_log_loop logger args is entry = is.filterMap (call_at logger args entry) := by
  induction is generalizing entry with
  | nil => rfl
  | cons i rest ih =>
    rw [logger_log_loop, List.filterMap_cons]
    cases hfn : (logger.callbacks i).fn with
    | none => simp only [call_at, hfn]; exact ih entry
    | some f =>
      by_cases hlt : entry.level < (logger.callbacks i).level
      · simp only [call_at, hfn, hlt, if_true]; exact ih entry
      · simp only [call_at, hfn, hlt, if_false]
        rw [ih]
        rfl

theorem call_at_slot (logger : Logger) (args : VaList) (entry : LogEntry)
    (i : Fin LOG_MAX_CALLBACKS) (c : Call) (h : call_at logger args entry i = some c) :
    c.slot = i := by
  unfold call_at at h
  split at h
  · cases h
  · split at h
    · cases h
    · cases h; rfl

theorem filter_slot_filterMap (logger : Logger) (args : VaList) (entry : LogEntry)
    (i : Fin LOG_MAX_CALLBACKS) (is : List (Fin LOG_MAX_CALLBACKS)) (hnd : is.Nodup) :
    (is.filterMap (call_at logger args entry)).filter (fun c => decide (c.slot = i)) =
      if i ∈ is then (call_at logger args entry i).toList else [] := by
  induction is with
  | nil => simp
  | cons j rest ih =>
    have hj : j ∉ rest := (List.nodup_cons.mp hnd).1
    have hrest := ih (List.nodup_cons.mp hnd).2
    rw [List.filterMap_cons]
    by_cases hij : i = j
    · subst hij
      have hrest2 : (List.filterMap (call_at logger args entry) rest).filter
          (fun c => decide (c.slot = i)) = [] := by
        rw [hrest, if_neg hj]
      cases hc : call_at logger args entry i with
      | none => simp [hrest2]
      | some c =>
        have hs := call_at_slot logger args entry i c hc
        simp [List.filter_cons, hs, hrest2]
    · have hmem : (i ∈ j :: rest) ↔ i ∈ rest := by simp [hij]
      cases hc : call_at logger args entry j with
      | none => simp only [hrest, hmem]
      | some c =>
        have hs := call_at_slot logger args entry j c hc
        have hne : ¬ c.slot = i := by rw [hs]; exact fun h => hij h.symm
        simp only [List.filter_cons, hne, decide_False, hrest, hmem]
        simp

/-! ## Lemmas on sink registration -/

theorem logger_add_callback_loop_eq (logger : Logger) (fn : Option LogCallbackFn)
    (level : LogLevel) (fd : Option FILE) (is : List (Fin LOG_MAX_CALLBACKS)) :
    logger_add_callback_loop logger fn level fd is =
      match is.find? (fun i => decide ((logger.callbacks i).fn = none)) with
      | none => logger
      | some i =>
        { logger with callbacks := Function.update logger.callbacks i ⟨fn, level, fd⟩ } := by
  induction is with
  | nil => rfl
  | cons i rest ih =>
    rw [logger_add_callback_loop]
    by_cases h : (logger.callbacks i).fn = none
    · simp [h, List.find?_cons]
    · simp only [h, if_false, List.find?_cons, decide_False]
      exact ih

theorem finRange_find_lowest {n : Nat} (p : Fin n → Bool) (i : Fin n)
    (h : (List.finRange n).find? p = some i) : p i = true ∧ ∀ j, j < i → p j = false := by
  rw [List.find?_eq_some] at h
  obtain ⟨hp, as, bs, heq, has⟩ := h
  refine ⟨hp, fun j hj => ?_⟩
  have hmem : j ∈ as ++ i :: bs := heq ▸ List.mem_finRange j
  have hsorted : (as ++ i :: bs).Pairwise (· < ·) := heq ▸ List.pairwise_lt_finRange n
  rcases List.mem_append.mp hmem with hm | hm
  · simpa using has j hm
  · rcases List.mem_cons.mp hm with hm | hm
    · exact absurd hm (Fin.ne_of_lt hj)
    · have hlt : i < j := List.rel_of_pairwise_cons (List.pairwise_append.mp hsorted).2.1 hm
      exact absurd hj (Fin.lt_asymm hlt)

theorem logger_add_callback_level (logger : Logger) (fn : Option LogCallbackFn)
    (level : LogLevel) (fd : Option FILE) :
    (logger_add_callback logger fn level fd).level = logger.level := by
  rw [logger_add_callback, logger_add_callback_loop_eq]
  split <;> rfl

theorem logger_add_callback_attrs (logger : Logger) (fn : Option LogCallbackFn)
    (level : LogLevel) (fd : Option FILE) :
    (logger_add_callback logger fn level fd).attrs = logger.attrs := by
  rw [logger_add_callback, logger_add_callback_loop_eq]
  split <;> rfl

theorem logger_add_callback_of_full (logger : Logger) (fn : Option LogCallbackFn)
    (level : LogLevel) (fd : Option FILE) (h : logger.full) :
    logger_add_callback logger fn level fd = logger := by
  rw [logger_add_callback, logger_add_callback_loop_eq]
  have hnone : (List.finRange LOG_MAX_CALLBACKS).find?
      (fun i => decide ((logger.callbacks i).fn = none)) = none := by
    rw [List.find?_eq_none]
    intro i _
    simpa using h i
  rw [hnone]

theorem logger_add_callback_of_empty (logger : Logger) (fn : Option LogCallbackFn)
    (level : LogLevel) (fd : Option FILE) (i : Fin LOG_MAX_CALLBACKS)
    (hi : (logger.callbacks i).fn = none) (hlow : ∀ j, j < i → (logger.callbacks j).fn ≠ none) :
    logger_add_callback logger fn level fd =
      { logger with callbacks := Function.update logger.callbacks i ⟨fn, level, fd⟩ } := by
  rw [logger_add_callback, logger_add_callback_loop_eq]
  cases hf : (List.finRange LOG_MAX_CALLBACKS).find?
      (fun i => decide ((logger.callbacks i).fn = none)) with
  | none =>
    rw [List.find?_eq_none] at hf
    have := hf i (List.mem_finRange i)
    simp [hi] at this
  | some k =>
    obtain ⟨hk, hklow⟩ := finRange_find_lowest _ k hf
    have hk2 : (logger.callbacks k).fn = none := by simpa using hk
    have hki : k = i := by
      rcases lt_trichotomy k i with hlt | heq | hgt
      · exact absurd hk2 (hlow k hlt)
      · exact heq
      · have := hklow i hgt
        simp [hi] at this
    subst hki
    rfl

theorem exists_lowest_empty (logger : Logger) (h : ∃ i, (logger.callbacks i).fn = none) :
    ∃ i, (logger.callbacks i).fn = none ∧ ∀ j, j < i → (logger.callbacks j).fn ≠ none := by
  cases hf : (List.finRange LOG_MAX_CALLBACKS).find?
      (fun i => decide ((logger.callbacks i).fn = none)) with
  | none =>
    rw [List.find?_eq_none] at hf
    obtain ⟨i, hi⟩ := h
    have := hf i (List.mem_finRange i)
    simp [hi] at this
  | some k =>
    obtain ⟨hk, hklow⟩ := finRange_find_lowest _ k hf
    exact ⟨k, by simpa using hk, fun j hj => by simpa using hklow j hj⟩

/-! ## Lemmas on construction -/

theorem ofFn_memcpy_callbacks (dst : Fin LOG_MAX_CALLBACKS → LogCallback)
    (src : Fin LOG_MAX_CUSTOM_CALLBACKS → LogCallback) :
    List.ofFn (memcpy_callbacks dst src) = dst 0 :: dst 1 :: List.ofFn src := by
  rw [List.ofFn_succ, List.ofFn_succ]
  rfl

theorem add_file_initial (config : LogConfig) (fd : Option FILE) :
    logger_add_callback (initial_logger config)
        (some LogCallbackFn.logger_write_to_file_callback_fn) config.level fd =
      { initial_logger config with
        callbacks := Function.update (fun _ => LogCallback.zero) 0 (file_sink config.level fd) } :=
  logger_add_callback_of_empty _ _ _ _ 0 rfl (fun j hj => absurd hj (Fin.not_lt_zero j))

theorem add_terminal_initial (config : LogConfig) :
    logger_add_callback (initial_logger config)
        (some LogCallbackFn.logger_write_to_terminal_callback_fn) config.level
        (some FILE.stdout) =
      { initial_logger config with
        callbacks := Function.update (fun _ => LogCallback.zero) 0 (terminal_sink config.level) } :=
  logger_add_callback_of_empty _ _ _ _ 0 rfl (fun j hj => absurd hj (Fin.not_lt_zero j))

theorem add_terminal_after_file (config : LogConfig) (fd : Option FILE) :
    logger_add_callback
        { initial_logger config with
          callbacks := Function.update (fun _ => LogCallback.zero) 0 (file_sink config.level fd) }
        (some LogCallbackFn.logger_write_to_terminal_callback_fn) config.level
        (some FILE.stdout) =
      { initial_logger config with
        callbacks := Function.update
          (Function.update (fun _ => LogCallback.zero) 0 (file_sink config.level fd)) 1
          (terminal_sink config.level) } := by
  refine logger_add_callback_of_empty _ _ _ _ 1 rfl (fun j hj => ?_)
  have hj0 : j = 0 := by
    apply Fin.ext
    have : j.val < 1 := hj
    show j.val = 0
    omega
  subst hj0
  simp [file_sink]

/-- The logger `create_logger` returns, case by case. -/
theorem create_logger_eq (fopen : String → Option FILE) (config : LogConfig) :
    create_logger fopen config =
      match config.filename with
      | none =>
        some { initial_logger config with
          callbacks := memcpy_callbacks
            (if config.quiet then fun _ => LogCallback.zero
             else Function.update (fun _ => LogCallback.zero) 0 (terminal_sink config.level))
            config.callbacks }
      | some name =>
        match fopen name with
        | none => none
        | some fd =>
          some { initial_logger config with
            callbacks := memcpy_callbacks
              (if config.quiet then
                Function.update (fun _ => LogCallback.zero) 0 (file_sink config.level (some fd))
               else Function.update
                (Function.update (fun _ => LogCallback.zero) 0 (file_sink config.level (some fd)))
                1 (terminal_sink config.level))
              config.callbacks } := by
  have h0 := add_terminal_initial config
  simp only [initial_logger] at h0
  unfold create_logger
  cases hname : config.filename with
  | none =>
    dsimp only
    cases hq : config.quiet with
    | true => rfl
    | false =>
      simp only [Option.pure_def, Option.bind_eq_bind, Option.some_bind, Bool.not_false, if_true]
      rw [h0]
      rfl
  | some name =>
    dsimp only
    cases hopen : fopen name with
    | none => rfl
    | some fd =>
      have h1 := add_file_initial config (some fd)
      have h2 := add_terminal_after_file config (some fd)
      simp only [initial_logger] at h1 h2
      dsimp only
      rw [h1]
      cases hq : config.quiet with
      | true => rfl
      | false =>
        simp only [Option.pure_def, Option.bind_eq_bind, Option.some_bind, Bool.not_false, if_true]
        rw [h2]
        rfl

/-! ## Lemmas on registration order -/

theorem invoked_eq_sinks_filter (logger : Logger) (args : VaList) (entry : LogEntry)
    (is : List (Fin LOG_MAX_CALLBACKS)) :
    invoked (is.filterMap (call_at logger args entry)) =
      ((((is.map logger.callbacks).filter (fun c => c.fn.isSome)).filter
        (fun s => decide (s.level ≤ entry.level))).map (fun s => (s.fn, s.fd))) := by
  induction is with
  | nil => rfl
  | cons i rest ih =>
    rw [List.filterMap_cons, List.map_cons]
    unfold invoked at ih ⊢
    cases hfn : (logger.callbacks i).fn with
    | none => simp only [call_at, hfn, List.filter_cons, Option.isSome_none]; exact ih
    | some f =>
      have hiff : (entry.level < (logger.callbacks i).level) ↔
          ¬ ((logger.callbacks i).level ≤ entry.level) := (Nat.not_le).symm
      by_cases hle : (logger.callbacks i).level ≤ entry.level
      · have hlt : ¬ entry.level < (logger.callbacks i).level := fun h => (hiff.mp h) hle
        simp only [call_at, hfn, hlt, if_false, List.filter_cons, Option.isSome_some, if_true,
          hle, decide_True, List.map_cons, ih]
      · have hlt : entry.level < (logger.callbacks i).level := hiff.mpr hle
        simp only [call_at, hfn, hlt, if_true, List.filter_cons, Option.isSome_some,
          hle, decide_False, ih]
        simp

theorem invoked_logger_log (now : Tm) (logger : Logger) (level : LogLevel) (file : String)
    (line : Int) (fmt : String) (args : VaList) :
    invoked (logger_log now logger level file line fmt args) =
      firing_in_order logger.sinks level := by
  unfold logger_log
  simp only [logger_log_loop_eq_filterMap, invoked_eq_sinks_filter]
  have hlen : logger.sinks.length ≤ LOG_MAX_CALLBACKS := by
    unfold Logger.sinks
    exact le_trans (List.length_filter_le _ _) (le_of_eq (List.length_ofFn _))
  unfold firing_in_order
  rw [List.take_of_length_le hlen, Logger.sinks, List.ofFn_eq_map]

theorem sinks_of_occupied_upto (logger : Logger) (k : Nat) (h : occupied_upto logger k) :
    logger.sinks =
      ((List.finRange LOG_MAX_CALLBACKS).filter (fun i => decide (i.val < k))).map
        logger.callbacks := by
  unfold Logger.sinks
  rw [List.ofFn_eq_map, List.filter_map]
  congr 1
  apply List.filter_congr
  intro i _
  have hi := h i
  cases hfn : (logger.callbacks i).fn with
  | none =>
    rw [hfn] at hi
    have : ¬ i.val < k := fun hlt => (hi.mpr hlt) rfl
    simp [hfn, this]
  | some f =>
    rw [hfn] at hi
    have : i.val < k := hi.mp (by simp)
    simp [hfn, this]

theorem occupied_upto_of_contiguous (logger : Logger) (h : logger.contiguous) :
    ∃ k, k ≤ LOG_MAX_CALLBACKS ∧ occupied_upto logger k := by
  by_cases hfull : ∃ i, (logger.callbacks i).fn = none
  · obtain ⟨i, hi, hlow⟩ := exists_lowest_empty logger hfull
    refine ⟨i.val, le_of_lt i.isLt, fun j => ⟨fun hj => ?_, fun hj => hlow j hj⟩⟩
    by_contra hge
    have hij : i ≤ j := Nat.le_of_not_lt hge
    exact h i j hij hj hi
  · refine ⟨LOG_MAX_CALLBACKS, le_refl _, fun j => ⟨fun _ => j.isLt, fun _ hj => hfull ⟨j, hj⟩⟩⟩

theorem filter_lt_succ (i : Fin LOG_MAX_CALLBACKS) :
    (List.finRange LOG_MAX_CALLBACKS).filter (fun j => decide (j.val < i.val + 1)) =
      (List.finRange LOG_MAX_CALLBACKS).filter (fun j => decide (j.val < i.val)) ++ [i] := by
  fin_cases i <;> rfl

theorem add_of_occupied_upto (logger : Logger) (i : Fin LOG_MAX_CALLBACKS)
    (h : occupied_upto logger i.val) (c : LogCallback) :
    logger_add_callback logger c.fn c.level c.fd =
      { logger with callbacks := Function.update logger.callbacks i c } :=
  logger_add_callback_of_empty logger c.fn c.level c.fd i
    (by
      by_contra hne
      exact absurd ((h i).mp hne) (lt_irrefl _))
    (fun j hj => (h j).mpr hj)

theorem occupied_upto_update_some (logger : Logger) (i : Fin LOG_MAX_CALLBACKS)
    (h : occupied_upto logger i.val) (c : LogCallback) (hc : c.fn ≠ none) :
    occupied_upto { logger with callbacks := Function.update logger.callbacks i c }
      (i.val + 1) := by
  intro j
  by_cases hji : j = i
  · subst hji
    simp [Function.update_same, hc]
  · have hv : j.val ≠ i.val := fun hv => hji (Fin.ext hv)
    simp only [Function.update_noteq hji]
    rw [h j]
    omega

theorem occupied_upto_update_none (logger : Logger) (i : Fin LOG_MAX_CALLBACKS)
    (h : occupied_upto logger i.val) (c : LogCallback) (hc : c.fn = none) :
    occupied_upto { logger with callbacks := Function.update logger.callbacks i c } i.val := by
  intro j
  by_cases hji : j = i
  · subst hji
    simp [Function.update_same, hc]
  · simp only [Function.update_noteq hji]
    exact h j

theorem sinks_update_some (logger : Logger) (i : Fin LOG_MAX_CALLBACKS)
    (h : occupied_upto logger i.val) (c : LogCallback) (hc : c.fn ≠ none) :
    ({ logger with callbacks := Function.update logger.callbacks i c } : Logger).sinks =
      logger.sinks ++ [c] := by
  rw [sinks_of_occupied_upto _ _ (occupied_upto_update_some logger i h c hc),
    sinks_of_occupied_upto _ _ h, filter_lt_succ, List.map_append]
  congr 1
  · apply List.map_congr_left
    intro j hj
    have hlt : j.val < i.val := by simpa using (List.mem_filter.mp hj).2
    have hji : j ≠ i := fun e => by rw [e] at hlt; exact lt_irrefl _ hlt
    exact Function.update_noteq hji _ _
  · simp [Function.update_same]

theorem sinks_update_none (logger : Logger) (i : Fin LOG_MAX_CALLBACKS)
    (h : occupied_upto logger i.val) (c : LogCallback) (hc : c.fn = none) :
    ({ logger with callbacks := Function.update logger.callbacks i c } : Logger).sinks =
      logger.sinks := by
  rw [sinks_of_occupied_upto _ _ (occupied_upto_update_none logger i h c hc),
    sinks_of_occupied_upto _ _ h]
  apply List.map_congr_left
  intro j hj
  have hlt : j.val < i.val := by simpa using (List.mem_filter.mp hj).2
  have hji : j ≠ i := fun e => by rw [e] at hlt; exact lt_irrefl _ hlt
  exact Function.update_noteq hji _ _

theorem sinks_length_le (logger : Logger) : logger.sinks.length ≤ LOG_MAX_CALLBACKS := by
  unfold Logger.sinks
  exact le_trans (List.length_filter_le _ _) (le_of_eq (List.length_ofFn _))

theorem sinks_length_of_full (logger : Logger) (h : occupied_upto logger LOG_MAX_CALLBACKS) :
    logger.sinks.length = LOG_MAX_CALLBACKS := by
  unfold Logger.sinks
  have hall : (List.ofFn logger.callbacks).filter (fun c => c.fn.isSome) =
      List.ofFn logger.callbacks := by
    rw [List.filter_eq_self]
    intro a ha
    obtain ⟨j, hj⟩ := (List.mem_ofFn _ _).mp ha
    have := (h j).mpr j.isLt
    rw [← hj]
    exact Option.isSome_iff_ne_none.mpr this
  rw [hall, List.length_ofFn]

theorem sinks_add_callbacks (adds : List LogCallback) :
    ∀ (logger : Logger) (k : Nat), k ≤ LOG_MAX_CALLBACKS → occupied_upto logger k →
      (add_callbacks logger adds).sinks =
        (logger.sinks ++ adds.filter (fun c => c.fn.isSome)).take LOG_MAX_CALLBACKS := by
  induction adds with
  | nil =>
    intro logger k _ _
    simp only [add_callbacks, List.foldl_nil, List.filter_nil, List.append_nil]
    exact (List.take_of_length_le (sinks_length_le logger)).symm
  | cons c rest ih =>
    intro logger k hk h
    simp only [add_callbacks, List.foldl_cons]
    rcases Nat.lt_or_ge k LOG_MAX_CALLBACKS with hlt | hge
    · have h2 : occupied_upto logger (⟨k, hlt⟩ : Fin LOG_MAX_CALLBACKS).val := h
      rw [add_of_occupied_upto logger ⟨k, hlt⟩ h2 c]
      cases hfn : c.fn with
      | none =>
        have h3 := occupied_upto_update_none logger ⟨k, hlt⟩ h2 c hfn
        have := ih _ k hk h3
        simp only [add_callbacks] at this
        rw [this, sinks_update_none logger ⟨k, hlt⟩ h2 c hfn]
        simp [List.filter_cons, hfn]
      | some f =>
        have hne : c.fn ≠ none := by rw [hfn]; simp
        have h3 := occupied_upto_update_some logger ⟨k, hlt⟩ h2 c hne
        have := ih _ (k + 1) hlt h3
        simp only [add_callbacks] at this
        rw [this, sinks_update_some logger ⟨k, hlt⟩ h2 c hne]
        simp [List.filter_cons, hfn]
    · have hk10 : k = LOG_MAX_CALLBACKS := le_antisymm hk hge
      subst hk10
      have hfull : logger.full := fun j => (h j).mpr j.isLt
      rw [logger_add_callback_of_full logger c.fn c.level c.fd hfull]
      have := ih logger _ hk h
      simp only [add_callbacks] at this
      rw [this]
      have hlen := sinks_length_of_full logger h
      rw [List.take_append_of_le_length (le_of_eq hlen.symm),
        List.take_append_of_le_length (le_of_eq hlen.symm)]

theorem sinks_update_empty_slot (logger : Logger) (i : Fin LOG_MAX_CALLBACKS)
    (hi : (logger.callbacks i).fn = none) (c : LogCallback) (hc : c.fn = none) :
    ({ logger with callbacks := Function.update logger.callbacks i c } : Logger).sinks =
      logger.sinks := by
  unfold Logger.sinks
  rw [List.ofFn_eq_map, List.ofFn_eq_map, List.filter_map, List.filter_map]
  have hpred : (List.finRange LOG_MAX_CALLBACKS).filter
        ((fun c : LogCallback => c.fn.isSome) ∘ Function.update logger.callbacks i c) =
      (List.finRange LOG_MAX_CALLBACKS).filter
        ((fun c : LogCallback => c.fn.isSome) ∘ logger.callbacks) := by
    apply List.filter_congr
    intro j _
    by_cases hji : j = i
    · subst hji
      simp [Function.update_same, hc, hi]
    · simp [Function.update_noteq hji]
  rw [hpred]
  apply List.map_congr_left
  intro j hj
  have hsome : (logger.callbacks j).fn.isSome = true := by
    simpa using (List.mem_filter.mp hj).2
  have hji : j ≠ i := by
    intro e
    rw [e, hi] at hsome
    simp at hsome
  exact Function.update_noteq hji _ _

theorem sinks_add_null (logger : Logger) (level : LogLevel) (fd : Option FILE) :
    (logger_add_callback logger none level fd).sinks = logger.sinks := by
  by_cases hfull : ∃ i, (logger.callbacks i).fn = none
  · obtain ⟨i, hi, hlow⟩ := exists_lowest_empty logger hfull
    rw [logger_add_callback_of_empty logger none level fd i hi hlow]
    exact sinks_update_empty_slot logger i hi ⟨none, level, fd⟩ rfl
  · have hf : logger.full := fun j hj => hfull ⟨j, hj⟩
    rw [logger_add_callback_of_full logger none level fd hf]

theorem sinks_add_callbacks_null (adds : List LogCallback) :
    ∀ logger : Logger, (∀ c ∈ adds, c.fn = none) →
      (add_callbacks logger adds).sinks = logger.sinks := by
  induction adds with
  | nil => intro logger _; rfl
  | cons c rest ih =>
    intro logger hnull
    have hc : c.fn = none := hnull c (List.mem_cons_self _ _)
    have hrest : ∀ d ∈ rest, d.fn = none := fun d hd => hnull d (List.mem_cons_of_mem _ hd)
    simp only [add_callbacks, List.foldl_cons]
    have := ih (logger_add_callback logger c.fn c.level c.fd) hrest
    simp only [add_callbacks] at this
    rw [this, hc, sinks_add_null]

theorem filter_fn_of_all_null (adds : List LogCallback) (h : ∀ c ∈ adds, c.fn = none) :
    adds.filter (fun c => c.fn.isSome) = [] := by
  rw [List.filter_eq_nil_iff]
  intro c hc
  simp [h c hc]

theorem invoked_add_callbacks (now : Tm) (adds : List LogCallback) (level : LogLevel)
    (file : String) (line : Int) (fmt : String) (args : VaList) (logger : Logger)
    (h : logger.contiguous ∨ ∀ c ∈ adds, c.fn = none) :
    invoked (logger_log now (add_callbacks logger adds) level file line fmt args) =
      firing_in_order (logger.sinks ++ adds.filter (fun c => c.fn.isSome)) level := by
  rcases h with hcont | hnull
  · obtain ⟨k, hk, hupto⟩ := occupied_upto_of_contiguous logger hcont
    rw [invoked_logger_log, sinks_add_callbacks adds logger k hk hupto]
    unfold firing_in_order
    rw [List.take_take, min_self]
  · rw [invoked_logger_log, sinks_add_callbacks_null adds logger hnull,
      filter_fn_of_all_null adds hnull, List.append_nil]

theorem create_logger_sinks_eq (fopen : String → Option FILE) (config : LogConfig)
    (hopen : ∀ name, config.filename = some name → fopen name ≠ none) :
    ∃ logger, create_logger fopen config = some logger ∧
      logger.sinks = config_registration fopen config := by
  unfold config_registration
  rw [create_logger_eq]
  cases hname : config.filename with
  | none =>
    refine ⟨_, rfl, ?_⟩
    simp only [Logger.sinks, ofFn_memcpy_callbacks]
    cases hq : config.quiet with
    | true => simp [LogCallback.zero, List.filter_cons]
    | false => simp [LogCallback.zero, List.filter_cons, terminal_sink, Function.update]
  | some name =>
    dsimp only
    cases hfd : fopen name with
    | none => exact absurd hfd (hopen name hname)
    | some fd =>
      refine ⟨_, rfl, ?_⟩
      simp only [Logger.sinks, ofFn_memcpy_callbacks]
      cases hq : config.quiet with
      | true => simp [LogCallback.zero, List.filter_cons, file_sink, Function.update]
      | false =>
        simp [LogCallback.zero, List.filter_cons, file_sink, terminal_sink, Function.update]

theorem create_logger_contiguous (fopen : String → Option FILE) (config : LogConfig)
    (logger : Logger) (hc : create_logger fopen config = some logger)
    (hfile : config.filename ≠ none) (hquiet : config.quiet = false)
    (hgap : config.gapless) : logger.contiguous := by
  rw [create_logger_eq] at hc
  cases hname : config.filename with
  | none => exact absurd hname hfile
  | some name =>
    rw [hname] at hc
    dsimp only at hc
    cases hfd : fopen name with
    | none => simp [hfd] at hc
    | some fd =>
      simp only [hfd, hquiet] at hc
      cases hc
      intro i j hij hj
      simp only [memcpy_callbacks] at hj ⊢
      by_cases hi2 : 2 ≤ i.val
      · have hj2 : 2 ≤ j.val := le_trans hi2 hij
        simp only [hi2, hj2, dite_true] at hj ⊢
        refine hgap _ _ ?_ hj
        show i.val - 2 ≤ j.val - 2
        exact Nat.sub_le_sub_right hij 2
      · simp only [hi2, dite_false]
        by_cases hi1 : i = 1
        · subst hi1
          simp [terminal_sink]
        · have hi0 : i = 0 := by
            apply Fin.ext
            have h1 : i.val ≠ 1 := fun h => hi1 (Fin.ext h)
            show i.val = 0
            omega
          subst hi0
          simp [file_sink]

/-! ## Lemmas on the calls of one dispatch -/

theorem mem_logger_log (now : Tm) (logger : Logger) (level : LogLevel) (file : String)
    (line : Int) (fmt : String) (args : VaList) (c : Call)
    (hc : c ∈ logger_log now logger level file line fmt args) :
    (logger.callbacks c.slot).fn = some c.fn ∧ (logger.callbacks c.slot).level ≤ level ∧
      c.entry = entry_for now logger level file line fmt args (logger.callbacks c.slot) := by
  unfold logger_log at hc
  simp only [logger_log_loop_eq_filterMap, List.mem_filterMap] at hc
  obtain ⟨i, _, hi⟩ := hc
  unfold call_at at hi
  cases hfn : (logger.callbacks i).fn with
  | none => simp [hfn] at hi
  | some f =>
    simp only [hfn] at hi
    by_cases hlt : level < (logger.callbacks i).level
    · simp [hlt] at hi
    · simp only [hlt, if_false, Option.some.injEq] at hi
      subst hi
      exact ⟨hfn, Nat.le_of_not_lt hlt, rfl⟩

theorem slot_calls_eq (now : Tm) (logger : Logger) (level : LogLevel) (file : String)
    (line : Int) (fmt : String) (args : VaList) (i : Fin LOG_MAX_CALLBACKS) :
    (logger_log now logger level file line fmt args).filter (fun c => decide (c.slot = i)) =
      (call_at logger args (entry_for now logger level file line fmt [] ⟨none, level, none⟩)
        i).toList := by
  unfold logger_log
  simp only [logger_log_loop_eq_filterMap]
  rw [filter_slot_filterMap _ _ _ _ _ (List.nodup_finRange _), if_pos (List.mem_finRange i)]
  rfl

theorem filterMap_sublist_of_imp {α β : Type} (f g : α → Option β) (l : List α)
    (h : ∀ a b, f a = some b → g a = some b) :
    (l.filterMap f).Sublist (l.filterMap g) := by
  induction l with
  | nil => exact List.Sublist.slnil
  | cons a rest ih =>
    rw [List.filterMap_cons, List.filterMap_cons]
    cases hf : f a with
    | none =>
      cases hg : g a with
      | none => exact ih
      | some b => exact List.Sublist.cons b ih
    | some b =>
      rw [h a b hf]
      exact List.Sublist.cons₂ b ih

theorem logger_log_length_le (now : Tm) (logger : Logger) (level : LogLevel) (file : String)
    (line : Int) (fmt : String) (args : VaList) :
    (logger_log now logger level file line fmt args).length ≤ LOG_MAX_CALLBACKS := by
  unfold logger_log
  simp only [logger_log_loop_eq_filterMap]
  exact le_trans (List.length_filterMap_le _ _) (le_of_eq (List.length_finRange _))

/-! ## Lemmas on the renderers -/

theorem write_attrs_eq_spec (attrs : Fin LOG_MAX_ATTRIBUTES → LogAttr)
    (is : List (Fin LOG_MAX_ATTRIBUTES)) :
    write_attrs false attrs is = spec_attr_text (is.map attrs) := by
  induction is with
  | nil => rfl
  | cons i rest ih =>
    rw [write_attrs, List.map_cons, spec_attr_text, ih]
    cases (attrs i).key <;> cases (attrs i).value <;>
      simp only [Bool.false_eq_true, if_false, String.append_assoc]

theorem fmt_s_left5_level (level : LogLevel) :
    fmt_s_left5 (log_level_to_string level) = spec_level_token level := by
  cases level <;> decide

theorem write_attrs_machine (color : Bool) :
    write_attrs color machine_attrs (List.finRange LOG_MAX_ATTRIBUTES) =
      if color then " \x1b[90m" ++ "machine=HOSTNAME-01" ++ "\x1b[0m"
      else " " ++ "machine=HOSTNAME-01" := by
  cases color <;> decide

theorem mem_logger_log_all (logger : Logger) (events : List LogEvent) (c : Call)
    (hc : c ∈ logger_log_all logger events) :
    ∃ e ∈ events, c ∈ logger_log e.now logger e.level e.file e.line e.fmt e.args := by
  induction events with
  | nil => simp [logger_log_all] at hc
  | cons e rest ih =>
    rw [logger_log_all, List.mem_append] at hc
    rcases hc with h | h
    · exact ⟨e, List.mem_cons_self _ _, h⟩
    · obtain ⟨e2, he2, hc2⟩ := ih h
      exact ⟨e2, List.mem_cons_of_mem _ he2, hc2⟩

theorem machine_info_calls :
    logger_log ⟨0, 0, 12, 1, 0, 124⟩ machine_logger LogLevel.INFO "example.c" 9 "Info log" [] =
      [machine_info_call] := rfl

theorem machine_warn_calls :
    logger_log ⟨1, 0, 12, 1, 0, 124⟩ machine_logger LogLevel.WARNING "example.c" 10 "Warn log"
      [] = [machine_warn_call] := rfl

theorem machine_events_calls :
    logger_log_all machine_logger machine_events = [machine_info_call, machine_warn_call] := rfl

theorem pair_logger_calls :
    logger_log ⟨0, 0, 12, 1, 0, 124⟩ pair_logger LogLevel.ERROR "example.c" 11 "Error log" [] =
      [pair_call_terminal, pair_call_custom] := rfl

/-! ## Lemmas on dispatch with the static buffer -/

/-- C1: for every logger, slot `i` and event level, the calls `logger_log` makes from slot `i`
are: none when the slot is empty, none when the level is below the sink's threshold, and
otherwise exactly one call, of the sink's render function, with an entry whose `fd` is the
sink's own handle. -/
theorem logger_log_slot_calls (now : Tm) (logger : Logger) (level : LogLevel) (file : String)
    (line : Int) (fmt : String) (args : VaList) (i : Fin LOG_MAX_CALLBACKS) :
    (logger_log now logger level file line fmt args).filter (fun c => decide (c.slot = i)) =
      match (logger.callbacks i).fn with
      | none => []
      | some f =>
        if (logger.callbacks i).level ≤ level then
          [⟨i, f, entry_for now logger level file line fmt args (logger.callbacks i)⟩]
        else [] := by
  unfold logger_log
  simp only [logger_log_loop_eq_filterMap]
  rw [filter_slot_filterMap _ _ _ _ _ (List.nodup_finRange _), if_pos (List.mem_finRange i)]
  unfold call_at
  cases hfn : (logger.callbacks i).fn with
  | none => rfl
  | some f =>
    have hiff : (level < (logger.callbacks i).level) ↔ ¬ ((logger.callbacks i).level ≤ level) :=
      (Nat.not_le).symm
    by_cases hle : (logger.callbacks i).level ≤ level
    · have hlt : ¬ level < (logger.callbacks i).level := fun h => (hiff.mp h) hle
      simp only [hlt, hle, if_true, if_false, Option.toList, entry_for]
    · have hlt : level < (logger.callbacks i).level := hiff.mpr hle
      simp only [hlt, hle, if_true, if_false, Option.toList]

/-- C4: when every one of the `LOG_MAX_CALLBACKS` slots has a render function bound,
`logger_add_callback` returns the logger unchanged, whatever sink is offered. -/
theorem logger_add_callback_full_unchanged (logger : Logger) (fn : Option LogCallbackFn)
    (level : LogLevel) (fd : Option FILE) (h : ∀ i, (logger.callbacks i).fn ≠ none) :
    logger_add_callback logger fn level fd = logger ∧ LOG_MAX_CALLBACKS = 10 :=
  ⟨logger_add_callback_of_full logger fn level fd h, rfl⟩

/-- Witness for C4 at `full_example` and a custom sink. -/
theorem logger_add_callback_full_unchanged_witness :
    (∀ i, (full_example.callbacks i).fn ≠ none) ∧
      (logger_add_callback full_example (some (LogCallbackFn.custom 7)) LogLevel.ERROR
        (some (FILE.opened 3)) = full_example ∧ LOG_MAX_CALLBACKS = 10) :=
  ⟨fun _ => by simp [full_example],
    logger_add_callback_full_unchanged full_example (some (LogCallbackFn.custom 7)) LogLevel.ERROR
      (some (FILE.opened 3)) (fun _ => by simp [full_example])⟩

/-- C5: when some slot is empty, `logger_add_callback` writes the offered triple into the
lowest-index empty slot and leaves every other slot, the severity floor and the attributes
as they were. -/
theorem logger_add_callback_first_empty (logger : Logger) (fn : Option LogCallbackFn)
    (level : LogLevel) (fd : Option FILE) (h : ∃ i, (logger.callbacks i).fn = none) :
    ∃ i, (logger.callbacks i).fn = none ∧ (∀ j, j < i → (logger.callbacks j).fn ≠ none) ∧
      (logger_add_callback logger fn level fd).callbacks i = ⟨fn, level, fd⟩ ∧
      (∀ j, j ≠ i → (logger_add_callback logger fn level fd).callbacks j = logger.callbacks j) ∧
      (logger_add_callback logger fn level fd).level = logger.level ∧
      (logger_add_callback logger fn level fd).attrs = logger.attrs := by
  obtain ⟨i, hi, hlow⟩ := exists_lowest_empty logger h
  refine ⟨i, hi, hlow, ?_, ?_, logger_add_callback_level _ _ _ _,
    logger_add_callback_attrs _ _ _ _⟩
  · rw [logger_add_callback_of_empty logger fn level fd i hi hlow]
    exact Function.update_same _ _ _
  · intro j hj
    rw [logger_add_callback_of_empty logger fn level fd i hi hlow]
    exact Function.update_noteq hj _ _

/-- Witness for C5 at the default logger, whose slot 1 is empty. -/
theorem logger_add_callback_first_empty_witness :
    (∃ i, (create_default_logger.callbacks i).fn = none) ∧
    ∃ i, (create_default_logger.callbacks i).fn = none ∧
      (∀ j, j < i → (create_default_logger.callbacks j).fn ≠ none) ∧
      (logger_add_callback create_default_logger (some (LogCallbackFn.custom 1)) LogLevel.ERROR
        (some FILE.stderr)).callbacks i = ⟨some (LogCallbackFn.custom 1), LogLevel.ERROR,
          some FILE.stderr⟩ ∧
      (∀ j, j ≠ i → (logger_add_callback create_default_logger (some (LogCallbackFn.custom 1))
        LogLevel.ERROR (some FILE.stderr)).callbacks j = create_default_logger.callbacks j) ∧
      (logger_add_callback create_default_logger (some (LogCallbackFn.custom 1)) LogLevel.ERROR
        (some FILE.stderr)).level = create_default_logger.level ∧
      (logger_add_callback create_default_logger (some (LogCallbackFn.custom 1)) LogLevel.ERROR
        (some FILE.stderr)).attrs = create_default_logger.attrs :=
  ⟨⟨1, rfl⟩, logger_add_callback_first_empty create_default_logger
    (some (LogCallbackFn.custom 1)) LogLevel.ERROR (some FILE.stderr) ⟨1, rfl⟩⟩

/-- C2: when the file named by the config (if any) can be opened, `create_logger` returns a
logger whose occupied sinks, read in slot order, are the file sink (threshold `config.level`,
the opened handle) if a filename is set, then the terminal sink (threshold `config.level`,
`stdout`) unless `quiet`, then the descriptors of `config.callbacks` that have a render
function, in config order and verbatim. -/
theorem create_logger_sinks (fopen : String → Option FILE) (config : LogConfig)
    (hopen : ∀ name, config.filename = some name → fopen name ≠ none) :
    ∃ logger, create_logger fopen config = some logger ∧
      logger.sinks =
        (match config.filename with
          | some name =>
            [⟨some LogCallbackFn.logger_write_to_file_callback_fn, config.level, fopen name⟩]
          | none => []) ++
        (if config.quiet then []
          else [⟨some LogCallbackFn.logger_write_to_terminal_callback_fn, config.level,
            some FILE.stdout⟩]) ++
        (List.ofFn config.callbacks).filter (fun c => c.fn.isSome) :=
  create_logger_sinks_eq fopen config hopen

/-- Witness for C2 at `sinks_example`, every open returning stream 4. -/
theorem create_logger_sinks_witness :
    (∀ name, sinks_example.filename = some name →
        (fun _ => some (FILE.opened 4)) name ≠ none) ∧
    ∃ logger, create_logger (fun _ => some (FILE.opened 4)) sinks_example = some logger ∧
      logger.sinks =
        (match sinks_example.filename with
          | some name =>
            [⟨some LogCallbackFn.logger_write_to_file_callback_fn, sinks_example.level,
              (fun _ => some (FILE.opened 4)) name⟩]
          | none => []) ++
        (if sinks_example.quiet then []
          else [⟨some LogCallbackFn.logger_write_to_terminal_callback_fn, sinks_example.level,
            some FILE.stdout⟩]) ++
        (List.ofFn sinks_example.callbacks).filter (fun c => c.fn.isSome) :=
  ⟨fun _ _ => by simp,
    create_logger_sinks (fun _ => some (FILE.opened 4)) sinks_example (fun _ _ => by simp)⟩

/-- C6: `create_default_logger` has severity floor `DEBUG`, every attribute slot unset, the
terminal renderer with threshold `DEBUG` and handle `stdout` in slot 0, every other slot
empty, hence exactly one occupied sink out of ten slots. -/
theorem create_default_logger_spec :
    create_default_logger.level = LogLevel.DEBUG ∧
    (∀ k, create_default_logger.attrs k = ⟨none, none⟩) ∧
    create_default_logger.callbacks 0 =
      ⟨some LogCallbackFn.logger_write_to_terminal_callback_fn, LogLevel.DEBUG,
        some FILE.stdout⟩ ∧
    (∀ i, i = 0 ∨ (create_default_logger.callbacks i).fn = none) ∧
    create_default_logger.sinks =
      [⟨some LogCallbackFn.logger_write_to_terminal_callback_fn, LogLevel.DEBUG,
        some FILE.stdout⟩] ∧
    ((List.finRange LOG_MAX_CALLBACKS).filter
      (fun i => decide ((create_default_logger.callbacks i).fn = none))).length = 9 := by
  refine ⟨rfl, fun _ => rfl, rfl, ?_, by decide, by decide⟩
  intro i
  by_cases h : i = 0
  · exact Or.inl h
  · right
    have hv : ¬ i.val = 0 := fun hv => h (Fin.ext hv)
    simp [create_default_logger, hv, LogCallback.zero]

/-- C7: a logger returned by `create_logger` has the severity floor and the attribute
array of the config. -/
theorem create_logger_level_attrs (fopen : String → Option FILE) (config : LogConfig)
    (logger : Logger) (h : create_logger fopen config = some logger) :
    logger.level = config.level ∧ ∀ k, logger.attrs k = config.attrs k := by
  rw [create_logger_eq] at h
  cases hname : config.filename with
  | none =>
    rw [hname] at h
    cases h
    exact ⟨rfl, fun _ => rfl⟩
  | some name =>
    rw [hname] at h
    dsimp only at h
    cases hfd : fopen name with
    | none => simp [hfd] at h
    | some fd =>
      simp only [hfd] at h
      cases h
      exact ⟨rfl, fun _ => rfl⟩

/-- Witness for C7 at `attrs_example`. -/
theorem create_logger_level_attrs_witness :
    create_logger (fun _ => none) attrs_example =
        some { initial_logger attrs_example with
          callbacks := memcpy_callbacks (fun _ => LogCallback.zero) attrs_example.callbacks } ∧
      ((({ initial_logger attrs_example with
          callbacks := memcpy_callbacks (fun _ => LogCallback.zero) attrs_example.callbacks } :
          Logger).level = attrs_example.level) ∧
        ∀ k, ({ initial_logger attrs_example with
          callbacks := memcpy_callbacks (fun _ => LogCallback.zero) attrs_example.callbacks } :
          Logger).attrs k = attrs_example.attrs k) :=
  ⟨rfl, create_logger_level_attrs (fun _ => none) attrs_example _ rfl⟩

/-- C8: `create_logger` returns no logger exactly when a filename is set and opening it
fails; without a filename it always returns one. -/
theorem create_logger_fails_iff (fopen : String → Option FILE) (config : LogConfig) :
    (create_logger fopen config = none ↔
      ∃ name, config.filename = some name ∧ fopen name = none) ∧
    (config.filename ≠ none ∨ (create_logger fopen config).isSome) := by
  rw [create_logger_eq]
  cases hname : config.filename with
  | none => simp
  | some name =>
    dsimp only
    cases hfd : fopen name with
    | none => simp [hfd]
    | some fd => simp [hfd]

/-- C9: in the scenario config (file `logs.log`, quiet, floor `WARNING`, one custom sink at
`ERROR` on a provided handle) `create_logger` returns a logger for which `logger_log` at
`DEBUG` makes no call, and at `ERROR` makes exactly two calls: the file renderer on the
opened handle, then the custom sink on its handle; unless the custom sink is itself the
terminal renderer on `stdout`, no call is the terminal renderer on `stdout`. -/
theorem scenario_file_quiet_custom (fopen : String → Option FILE) (opened : FILE)
    (hopen : fopen "logs.log" = some opened) (now : Tm)
    (attrs : Fin LOG_MAX_ATTRIBUTES → LogAttr) (k : Fin LOG_MAX_CUSTOM_CALLBACKS)
    (f : LogCallbackFn) (h : Option FILE) (file : String) (line : Int) (fmt : String)
    (args : VaList) :
    ∃ logger, create_logger fopen (scenario_config attrs k f h) = some logger ∧
      logger_log now logger LogLevel.DEBUG file line fmt args = [] ∧
      logger_log now logger LogLevel.ERROR file line fmt args =
        [⟨0, LogCallbackFn.logger_write_to_file_callback_fn,
            entry_for now logger LogLevel.ERROR file line fmt args
              ⟨some LogCallbackFn.logger_write_to_file_callback_fn, LogLevel.WARNING,
                some opened⟩⟩,
          ⟨⟨k.val + 2, Nat.add_lt_add_right k.isLt 2⟩, f,
            entry_for now logger LogLevel.ERROR file line fmt args
              ⟨some f, LogLevel.ERROR, h⟩⟩] ∧
      ((f ≠ LogCallbackFn.logger_write_to_terminal_callback_fn ∨ h ≠ some FILE.stdout) →
        ∀ c ∈ logger_log now logger LogLevel.ERROR file line fmt args,
          ¬ (c.fn = LogCallbackFn.logger_write_to_terminal_callback_fn ∧
            c.entry.fd = some FILE.stdout)) := by
  have hc : create_logger fopen (scenario_config attrs k f h) =
      some { initial_logger (scenario_config attrs k f h) with
        callbacks := memcpy_callbacks
          (Function.update (fun _ => LogCallback.zero) 0
            (file_sink LogLevel.WARNING (some opened)))
          (scenario_config attrs k f h).callbacks } := by
    rw [create_logger_eq]
    simp only [scenario_config, hopen]
    rfl
  have key : ∀ {A B : Prop}, A → (A → B) → A ∧ B := fun a g => ⟨a, g a⟩
  refine ⟨_, hc, ?_, key ?_ ?_⟩
  · fin_cases k <;> rfl
  · fin_cases k <;> rfl
  · intro hE hne c hmem
    rw [hE] at hmem
    simp only [List.mem_cons, List.mem_singleton, List.not_mem_nil, or_false] at hmem
    rcases hmem with hmem | hmem
    · subst hmem
      intro hcontra
      exact LogCallbackFn.noConfusion hcontra.1
    · subst hmem
      intro hcontra
      rcases hne with hne | hne
      · exact hne hcontra.1
      · exact hne hcontra.2

/-- Witness for C9: every open returns stream 1, the custom sink is application function 0
on `stderr` in the first descriptor. -/
theorem scenario_file_quiet_custom_witness :
    (fun _ => some (FILE.opened 1) : String → Option FILE) "logs.log" = some (FILE.opened 1) ∧
    ∃ logger, create_logger (fun _ => some (FILE.opened 1))
        (scenario_config (fun _ => LogAttr.zero) 0 (LogCallbackFn.custom 0) (some FILE.stderr)) =
        some logger ∧
      logger_log ⟨0, 0, 12, 1, 0, 124⟩ logger LogLevel.DEBUG "main.c" 48 "Debug log" [] = [] ∧
      logger_log ⟨0, 0, 12, 1, 0, 124⟩ logger LogLevel.ERROR "main.c" 48 "Debug log" [] =
        [⟨0, LogCallbackFn.logger_write_to_file_callback_fn,
            entry_for ⟨0, 0, 12, 1, 0, 124⟩ logger LogLevel.ERROR "main.c" 48 "Debug log" []
              ⟨some LogCallbackFn.logger_write_to_file_callback_fn, LogLevel.WARNING,
                some (FILE.opened 1)⟩⟩,
          ⟨⟨(0 : Fin LOG_MAX_CUSTOM_CALLBACKS).val + 2,
              Nat.add_lt_add_right (0 : Fin LOG_MAX_CUSTOM_CALLBACKS).isLt 2⟩,
            LogCallbackFn.custom 0,
            entry_for ⟨0, 0, 12, 1, 0, 124⟩ logger LogLevel.ERROR "main.c" 48 "Debug log" []
              ⟨some (LogCallbackFn.custom 0), LogLevel.ERROR, some FILE.stderr⟩⟩] ∧
      ((LogCallbackFn.custom 0 ≠ LogCallbackFn.logger_write_to_terminal_callback_fn ∨
          some FILE.stderr ≠ some FILE.stdout) →
        ∀ c ∈ logger_log ⟨0, 0, 12, 1, 0, 124⟩ logger LogLevel.ERROR "main.c" 48 "Debug log" [],
          ¬ (c.fn = LogCallbackFn.logger_write_to_terminal_callback_fn ∧
            c.entry.fd = some FILE.stdout)) :=
  ⟨rfl, scenario_file_quiet_custom (fun _ => some (FILE.opened 1)) (FILE.opened 1) rfl
    ⟨0, 0, 12, 1, 0, 124⟩ (fun _ => LogAttr.zero) 0 (LogCallbackFn.custom 0) (some FILE.stderr)
    "main.c" 48 "Debug log" []⟩

/-- C10: for the default logger and every level, `logger_log` makes exactly one call, of the
terminal renderer with `fd` equal to `stdout` (so none of the file renderer); and for level
`INFO` and message `hello` the text that call writes contains `INFO` and `hello`. -/
theorem default_logger_dispatch (libc : Libc) (color : Bool) (now : Tm) (file : String)
    (line : Int) (hfmt : libc.vfprintf "hello" [] = "hello") :
    (∀ level fmt args, logger_log now create_default_logger level file line fmt args =
      [⟨0, LogCallbackFn.logger_write_to_terminal_callback_fn,
        entry_for now create_default_logger level file line fmt args
          ⟨some LogCallbackFn.logger_write_to_terminal_callback_fn, LogLevel.DEBUG,
            some FILE.stdout⟩⟩]) ∧
    (∀ level fmt args, ∀ c ∈ logger_log now create_default_logger level file line fmt args,
      c.fn ≠ LogCallbackFn.logger_write_to_file_callback_fn ∧ c.entry.fd = some FILE.stdout) ∧
    (∀ c ∈ logger_log now create_default_logger LogLevel.INFO file line "hello" [],
      (∃ pre post, logger_write_to_terminal_callback_fn libc color c.entry =
        pre ++ "INFO" ++ post) ∧
      (∃ pre post, logger_write_to_terminal_callback_fn libc color c.entry =
        pre ++ "hello" ++ post)) := by
  have hall : ∀ level fmt args,
      logger_log now create_default_logger level file line fmt args =
      [⟨0, LogCallbackFn.logger_write_to_terminal_callback_fn,
        entry_for now create_default_logger level file line fmt args
          ⟨some LogCallbackFn.logger_write_to_terminal_callback_fn, LogLevel.DEBUG,
            some FILE.stdout⟩⟩] := by
    intro level fmt args
    cases level <;> rfl
  refine ⟨hall, ?_, ?_⟩
  · intro level fmt args c hc
    rw [hall] at hc
    simp only [List.mem_singleton] at hc
    subst hc
    exact ⟨fun h => LogCallbackFn.noConfusion h, rfl⟩
  · intro c hc
    rw [hall] at hc
    simp only [List.mem_singleton] at hc
    subst hc
    have h5 : fmt_s_left5 (log_level_to_string LogLevel.INFO) = "INFO" ++ " " := by decide
    simp only [logger_write_to_terminal_callback_fn, entry_for, h5, hfmt]
    cases color
    · simp only [Bool.false_eq_true, if_false]
      exact ⟨⟨strftime_buf libc 16 "%H:%M:%S" now ++ " ",
          " " ++ " " ++ file ++ ":" ++ fmt_d line ++ " " ++ "hello" ++
            write_attrs false create_default_logger.attrs (List.finRange LOG_MAX_ATTRIBUTES) ++
            "\n",
          by simp only [String.append_assoc]⟩,
        ⟨strftime_buf libc 16 "%H:%M:%S" now ++ " " ++ "INFO" ++ " " ++ " " ++ file ++ ":" ++
            fmt_d line ++ " ",
          write_attrs false create_default_logger.attrs (List.finRange LOG_MAX_ATTRIBUTES) ++
            "\n",
          by simp only [String.append_assoc]⟩⟩
    · simp only [if_true]
      exact ⟨⟨strftime_buf libc 16 "%H:%M:%S" now ++ " " ++ log_level_to_color LogLevel.INFO,
          " " ++ "\x1b[0m" ++ " " ++ "\x1b[90m" ++ file ++ ":" ++ fmt_d line ++ "\x1b[0m" ++
            " " ++ "hello" ++
            write_attrs true create_default_logger.attrs (List.finRange LOG_MAX_ATTRIBUTES) ++
            "\n",
          by simp only [String.append_assoc]⟩,
        ⟨strftime_buf libc 16 "%H:%M:%S" now ++ " " ++ log_level_to_color LogLevel.INFO ++
            "INFO" ++ " " ++ "\x1b[0m" ++ " " ++ "\x1b[90m" ++ file ++ ":" ++ fmt_d line ++
            "\x1b[0m" ++ " ",
          write_attrs true create_default_logger.attrs (List.finRange LOG_MAX_ATTRIBUTES) ++
            "\n",
          by simp only [String.append_assoc]⟩⟩

/-- Witness for C10: a libc that prints the format verbatim, with `LOG_USE_COLOR` defined. -/
theorem default_logger_dispatch_witness :
    (⟨fun _ _ => "12:00:00", fun fmt _ => fmt⟩ : Libc).vfprintf "hello" [] = "hello" ∧
    ((∀ level fmt args,
      logger_log ⟨0, 0, 12, 1, 0, 124⟩ create_default_logger level "example.c" 9 fmt args =
      [⟨0, LogCallbackFn.logger_write_to_terminal_callback_fn,
        entry_for ⟨0, 0, 12, 1, 0, 124⟩ create_default_logger level "example.c" 9 fmt args
          ⟨some LogCallbackFn.logger_write_to_terminal_callback_fn, LogLevel.DEBUG,
            some FILE.stdout⟩⟩]) ∧
    (∀ level fmt args,
      ∀ c ∈ logger_log ⟨0, 0, 12, 1, 0, 124⟩ create_default_logger level "example.c" 9 fmt args,
      c.fn ≠ LogCallbackFn.logger_write_to_file_callback_fn ∧ c.entry.fd = some FILE.stdout) ∧
    (∀ c ∈ logger_log ⟨0, 0, 12, 1, 0, 124⟩ create_default_logger LogLevel.INFO "example.c" 9
        "hello" [],
      (∃ pre post, logger_write_to_terminal_callback_fn
        ⟨fun _ _ => "12:00:00", fun fmt _ => fmt⟩ true c.entry = pre ++ "INFO" ++ post) ∧
      (∃ pre post, logger_write_to_terminal_callback_fn
        ⟨fun _ _ => "12:00:00", fun fmt _ => fmt⟩ true c.entry = pre ++ "hello" ++ post))) :=
  ⟨rfl, default_logger_dispatch ⟨fun _ _ => "12:00:00", fun fmt _ => fmt⟩ true
    ⟨0, 0, 12, 1, 0, 124⟩ "example.c" 9 rfl⟩

/-- C3, counterexample: for `order_example` followed by one `logger_add_callback` of custom
sink 2, a `DEBUG` event invokes sink 2 (stored in slot 0) before the config's sink 1 (stored
in slot 2), although sink 1 was registered first. -/
theorem registration_order_counterexample :
    ∃ logger, create_logger (fun _ => none) order_example = some logger ∧
      invoked (logger_log ⟨0, 0, 12, 1, 0, 124⟩
          (add_callbacks logger
            [⟨some (LogCallbackFn.custom 2), LogLevel.DEBUG, some FILE.stderr⟩])
          LogLevel.DEBUG "main.c" 48 "Debug log" []) =
        [(some (LogCallbackFn.custom 2), some FILE.stderr),
          (some (LogCallbackFn.custom 1), some FILE.stderr)] ∧
      firing_in_order
          (config_registration (fun _ => none) order_example ++
            [⟨some (LogCallbackFn.custom 2), LogLevel.DEBUG, some FILE.stderr⟩])
          LogLevel.DEBUG =
        [(some (LogCallbackFn.custom 1), some FILE.stderr),
          (some (LogCallbackFn.custom 2), some FILE.stderr)] ∧
      invoked (logger_log ⟨0, 0, 12, 1, 0, 124⟩
          (add_callbacks logger
            [⟨some (LogCallbackFn.custom 2), LogLevel.DEBUG, some FILE.stderr⟩])
          LogLevel.DEBUG "main.c" 48 "Debug log" []) ≠
        firing_in_order
          (config_registration (fun _ => none) order_example ++
            [⟨some (LogCallbackFn.custom 2), LogLevel.DEBUG, some FILE.stderr⟩])
          LogLevel.DEBUG :=
  ⟨_, rfl, by decide, by decide, by decide⟩

/-- C3, amended: `logger_log` invokes the sinks that fire in slot order, for every logger.
After any sequence of `logger_add_callback` calls this is the registration order (the
logger's sinks, then the added sinks with a render function in call order, cut at
`LOG_MAX_CALLBACKS`) whenever the occupied slots of the logger are contiguous from slot 0 or
no call of the sequence carries a render function. This covers the default logger with any
sequence, every `create_logger` config (the file, if any, opening) without later sink
carrying a render function, and every config whose logger is contiguous, such as one with a
file, `quiet` false and no empty custom descriptor before an occupied one, with any
sequence; the sinks of `create_logger` are the file sink, the terminal sink and the custom
sinks in config order. -/
theorem dispatch_follows_registration (now : Tm) (adds : List LogCallback) (level : LogLevel)
    (file : String) (line : Int) (fmt : String) (args : VaList) :
    (∀ logger : Logger,
      invoked (logger_log now (add_callbacks logger adds) level file line fmt args) =
        firing_in_order (add_callbacks logger adds).sinks level) ∧
    (∀ logger : Logger, (logger.contiguous ∨ ∀ c ∈ adds, c.fn = none) →
      invoked (logger_log now (add_callbacks logger adds) level file line fmt args) =
        firing_in_order (logger.sinks ++ adds.filter (fun c => c.fn.isSome)) level) ∧
    invoked (logger_log now (add_callbacks create_default_logger adds) level file line fmt
        args) =
      firing_in_order
        ([⟨some LogCallbackFn.logger_write_to_terminal_callback_fn, LogLevel.DEBUG,
            some FILE.stdout⟩] ++ adds.filter (fun c => c.fn.isSome)) level ∧
    (∀ (fopen : String → Option FILE) (config : LogConfig),
      (∀ name, config.filename = some name → fopen name ≠ none) →
      ∃ logger, create_logger fopen config = some logger ∧
        ((logger.contiguous ∨ ∀ c ∈ adds, c.fn = none) →
          invoked (logger_log now (add_callbacks logger adds) level file line fmt args) =
            firing_in_order
              (config_registration fopen config ++ adds.filter (fun c => c.fn.isSome))
              level) ∧
        (config.filename ≠ none → config.quiet = false → config.gapless →
          logger.contiguous)) := by
  refine ⟨fun logger => invoked_logger_log _ _ _ _ _ _ _,
    fun logger h => invoked_add_callbacks now adds level file line fmt args logger h, ?_, ?_⟩
  · have hcont : create_default_logger.contiguous := by
      unfold Logger.contiguous
      decide
    exact invoked_add_callbacks now adds level file line fmt args create_default_logger
      (Or.inl hcont)
  · intro fopen config hopen
    obtain ⟨logger, hc, hsinks⟩ := create_logger_sinks_eq fopen config hopen
    refine ⟨logger, hc, fun h => ?_, fun hfile hquiet hgap =>
      create_logger_contiguous fopen config logger hc hfile hquiet hgap⟩
    exact hsinks ▸ invoked_add_callbacks now adds level file line fmt args logger h

/-- Witness for C3 (amended): the default logger followed by one `logger_add_callback` of a
custom sink at `ERROR`, for an `ERROR` event; and the config `order_example` (quiet, no file,
one custom sink, not contiguous) without later sink. -/
theorem dispatch_follows_registration_witness :
    (create_default_logger.contiguous ∧
      invoked (logger_log ⟨0, 0, 12, 1, 0, 124⟩
          (add_callbacks create_default_logger
            [⟨some (LogCallbackFn.custom 2), LogLevel.ERROR, some FILE.stderr⟩])
          LogLevel.ERROR "main.c" 48 "Error log" []) =
        firing_in_order
          (create_default_logger.sinks ++
            [⟨some (LogCallbackFn.custom 2), LogLevel.ERROR, some FILE.stderr⟩].filter
              (fun c => c.fn.isSome))
          LogLevel.ERROR) ∧
    ((∀ name, order_example.filename = some name →
        (fun _ => none : String → Option FILE) name ≠ none) ∧
      ∃ logger, create_logger (fun _ => none) order_example = some logger ∧
        ((logger.contiguous ∨ ∀ c ∈ ([] : List LogCallback), c.fn = none) →
          invoked (logger_log ⟨0, 0, 12, 1, 0, 124⟩ (add_callbacks logger []) LogLevel.ERROR
              "main.c" 48 "Error log" []) =
            firing_in_order
              (config_registration (fun _ => none) order_example ++
                ([] : List LogCallback).filter (fun c => c.fn.isSome))
              LogLevel.ERROR) ∧
        (order_example.filename ≠ none → order_example.quiet = false →
          order_example.gapless → logger.contiguous)) :=
  ⟨⟨by unfold Logger.contiguous; decide,
      (dispatch_follows_registration ⟨0, 0, 12, 1, 0, 124⟩
        [⟨some (LogCallbackFn.custom 2), LogLevel.ERROR, some FILE.stderr⟩]
        LogLevel.ERROR "main.c" 48 "Error log" []).2.1 create_default_logger
        (Or.inl (by unfold Logger.contiguous; decide))⟩,
    ⟨fun _ h => Option.noConfusion h,
      (dispatch_follows_registration ⟨0, 0, 12, 1, 0, 124⟩ [] LogLevel.ERROR "main.c" 48
        "Error log" []).2.2.2 (fun _ => none) order_example
        (fun _ h => Option.noConfusion h)⟩⟩

/-- C11, counterexample: with `LOG_USE_COLOR` the line the terminal renderer writes for
`machine_logger` ends with the colour reset sequence, not with `machine=HOSTNAME-01`. -/
theorem colored_line_counterexample :
    ∃ c ∈ logger_log ⟨0, 0, 12, 1, 0, 124⟩ machine_logger LogLevel.INFO "example.c" 9
        "Info log" [],
      c.fn = LogCallbackFn.logger_write_to_terminal_callback_fn ∧
      c.entry.attrs = machine_attrs ∧
      logger_write_to_terminal_callback_fn libc_example true c.entry =
        "12:00:00 \x1b[32mINFO \x1b[0m \x1b[90mexample.c:9\x1b[0m Info log" ++
          " \x1b[90mmachine=HOSTNAME-01\x1b[0m\n" ∧
      ¬ ∃ pre, logger_write_to_terminal_callback_fn libc_example true c.entry =
        pre ++ "machine=HOSTNAME-01" ++ "\n" := by
  refine ⟨⟨0, LogCallbackFn.logger_write_to_terminal_callback_fn,
    entry_for ⟨0, 0, 12, 1, 0, 124⟩ machine_logger LogLevel.INFO "example.c" 9 "Info log" []
      ⟨some LogCallbackFn.logger_write_to_terminal_callback_fn, LogLevel.DEBUG,
        some FILE.stdout⟩⟩, ?_, rfl, rfl, by decide, ?_⟩
  · have h : logger_log ⟨0, 0, 12, 1, 0, 124⟩ machine_logger LogLevel.INFO "example.c" 9
        "Info log" [] = [⟨0, LogCallbackFn.logger_write_to_terminal_callback_fn,
          entry_for ⟨0, 0, 12, 1, 0, 124⟩ machine_logger LogLevel.INFO "example.c" 9
            "Info log" [] ⟨some LogCallbackFn.logger_write_to_terminal_callback_fn,
              LogLevel.DEBUG, some FILE.stdout⟩⟩] := rfl
    rw [h]
    exact List.mem_singleton_self _
  · rintro ⟨pre, hpre⟩
    have hdata := congrArg String.data hpre
    rw [String.append_assoc, String.data_append] at hdata
    have hsuf : ("machine=HOSTNAME-01" ++ "\n").data <:+
        (logger_write_to_terminal_callback_fn libc_example true
          (entry_for ⟨0, 0, 12, 1, 0, 124⟩ machine_logger LogLevel.INFO "example.c" 9
            "Info log" [] ⟨some LogCallbackFn.logger_write_to_terminal_callback_fn,
              LogLevel.DEBUG, some FILE.stdout⟩)).data :=
      ⟨pre.data, hdata.symm⟩
    revert hsuf
    decide

/-- C11, amended: for a logger whose attributes are the single attribute
`machine=HOSTNAME-01`, the line written for any entry `logger_log` hands to a sink ends, before
the newline, with `machine=HOSTNAME-01` for the file renderer and for the terminal renderer
without `LOG_USE_COLOR`; with `LOG_USE_COLOR` the terminal line ends with
`machine=HOSTNAME-01` followed by the colour reset sequence. -/
theorem machine_attr_ends_line (libc : Libc) (now : Tm) (logger : Logger)
    (hattrs : logger.attrs = machine_attrs) (level : LogLevel) (file : String) (line : Int)
    (fmt : String) (args : VaList) (c : Call)
    (hc : c ∈ logger_log now logger level file line fmt args) :
    (∃ pre, logger_write_to_file_callback_fn libc c.entry =
      pre ++ "machine=HOSTNAME-01" ++ "\n") ∧
    (∃ pre, logger_write_to_terminal_callback_fn libc false c.entry =
      pre ++ "machine=HOSTNAME-01" ++ "\n") ∧
    (∃ pre, logger_write_to_terminal_callback_fn libc true c.entry =
      pre ++ "machine=HOSTNAME-01" ++ "\x1b[0m" ++ "\n") := by
  have hentry := (mem_logger_log now logger level file line fmt args c hc).2.2
  have ha : c.entry.attrs = machine_attrs := by rw [hentry]; exact hattrs
  refine ⟨?_, ?_, ?_⟩
  · refine ⟨strftime_buf libc 64 "%Y-%m-%d %H:%M:%S" c.entry.time ++ " " ++
      fmt_s_left5 (log_level_to_string c.entry.level) ++ " " ++ c.entry.file ++ ":" ++
      fmt_d c.entry.line ++ " " ++ libc.vfprintf c.entry.fmt c.entry.args ++ " ", ?_⟩
    simp only [logger_write_to_file_callback_fn, ha, write_attrs_machine, Bool.false_eq_true,
      if_false, String.append_assoc]
  · refine ⟨strftime_buf libc 16 "%H:%M:%S" c.entry.time ++ " " ++
      fmt_s_left5 (log_level_to_string c.entry.level) ++ " " ++ c.entry.file ++ ":" ++
      fmt_d c.entry.line ++ " " ++ libc.vfprintf c.entry.fmt c.entry.args ++ " ", ?_⟩
    simp only [logger_write_to_terminal_callback_fn, ha, write_attrs_machine,
      Bool.false_eq_true, if_false, String.append_assoc]
  · refine ⟨strftime_buf libc 16 "%H:%M:%S" c.entry.time ++ " " ++
      log_level_to_color c.entry.level ++ fmt_s_left5 (log_level_to_string c.entry.level) ++
      "\x1b[0m" ++ " " ++ "\x1b[90m" ++ c.entry.file ++ ":" ++ fmt_d c.entry.line ++
      "\x1b[0m" ++ " " ++ libc.vfprintf c.entry.fmt c.entry.args ++ " \x1b[90m", ?_⟩
    simp only [logger_write_to_terminal_callback_fn, ha, write_attrs_machine, if_true,
      String.append_assoc]

/-- Witness for C11 (amended): `machine_logger`, an `INFO` event of the example program. -/
theorem machine_attr_ends_line_witness :
    machine_logger.attrs = machine_attrs ∧
    machine_info_call ∈
      logger_log ⟨0, 0, 12, 1, 0, 124⟩ machine_logger LogLevel.INFO "example.c" 9 "Info log"
        [] ∧
    ((∃ pre, logger_write_to_file_callback_fn libc_example machine_info_call.entry =
      pre ++ "machine=HOSTNAME-01" ++ "\n") ∧
    (∃ pre, logger_write_to_terminal_callback_fn libc_example false machine_info_call.entry =
      pre ++ "machine=HOSTNAME-01" ++ "\n") ∧
    (∃ pre, logger_write_to_terminal_callback_fn libc_example true machine_info_call.entry =
      pre ++ "machine=HOSTNAME-01" ++ "\x1b[0m" ++ "\n")) :=
  ⟨rfl, machine_info_calls ▸ List.mem_singleton_self _,
    machine_attr_ends_line libc_example ⟨0, 0, 12, 1, 0, 124⟩ machine_logger rfl LogLevel.INFO
      "example.c" 9 "Info log" [] machine_info_call
      (machine_info_calls ▸ List.mem_singleton_self _)⟩

/-- C12: every entry handed to a sink by any of a sequence of `logger_log` calls on one
logger carries that logger's attribute array, slot by slot; the logger is passed by value, so
each call of the sequence dispatches on the same level, attributes and sinks. -/
theorem logger_log_all_attrs (logger : Logger) (events : List LogEvent) (c : Call)
    (hc : c ∈ logger_log_all logger events) :
    (∀ k, c.entry.attrs k = logger.attrs k) ∧
    ∃ e ∈ events, c ∈ logger_log e.now logger e.level e.file e.line e.fmt e.args ∧
      c.entry = entry_for e.now logger e.level e.file e.line e.fmt e.args
        (logger.callbacks c.slot) := by
  obtain ⟨e, he, hce⟩ := mem_logger_log_all logger events c hc
  have hentry := (mem_logger_log e.now logger e.level e.file e.line e.fmt e.args c hce).2.2
  exact ⟨fun k => by rw [hentry]; rfl, e, he, hce, hentry⟩

/-- Witness for C12: two successive calls on `machine_logger`, the entry of the second. -/
theorem logger_log_all_attrs_witness :
    machine_warn_call ∈ logger_log_all machine_logger machine_events ∧
    ((∀ k, machine_warn_call.entry.attrs k = machine_logger.attrs k) ∧
    ∃ e ∈ machine_events,
      machine_warn_call ∈ logger_log e.now machine_logger e.level e.file e.line e.fmt e.args ∧
      machine_warn_call.entry =
        entry_for e.now machine_logger e.level e.file e.line e.fmt e.args
          (machine_logger.callbacks machine_warn_call.slot)) :=
  ⟨machine_events_calls ▸ List.mem_cons_of_mem _ (List.mem_singleton_self _),
    logger_log_all_attrs machine_logger machine_events machine_warn_call
      (machine_events_calls ▸ List.mem_cons_of_mem _ (List.mem_singleton_self _))⟩

/-- C14, counterexample: `floor_example` has floor `ERROR` and a custom sink with threshold
`DEBUG`; an `INFO` event, below the floor, still invokes that sink. -/
theorem logger_floor_counterexample :
    LogLevel.INFO < floor_example.level ∧
    ∃ logger, create_logger (fun _ => none) floor_example = some logger ∧
      invoked (logger_log ⟨0, 0, 12, 1, 0, 124⟩ logger LogLevel.INFO "main.c" 48 "Info log"
          []) = [(some (LogCallbackFn.custom 1), some FILE.stderr)] ∧
      logger_log ⟨0, 0, 12, 1, 0, 124⟩ logger LogLevel.INFO "main.c" 48 "Info log" [] ≠ [] :=
  ⟨by decide, _, rfl, by decide, fun h => List.noConfusion (congrArg invoked h)⟩

/-- C14, amended: for the logger `create_logger` builds (the file, if any, opening) and every
event level below `config.level`, `logger_log` invokes neither the implicit file sink nor the
implicit terminal sink; it invokes exactly the custom sinks of the config whose own threshold
is at most the event level, in config order. -/
theorem logger_floor_implicit_sinks (fopen : String → Option FILE) (config : LogConfig)
    (hopen : ∀ name, config.filename = some name → fopen name ≠ none) (now : Tm)
    (level : LogLevel) (hlevel : level < config.level) (file : String) (line : Int)
    (fmt : String) (args : VaList) :
    ∃ logger, create_logger fopen config = some logger ∧
      invoked (logger_log now logger level file line fmt args) =
        ((((List.ofFn config.callbacks).filter (fun c => c.fn.isSome)).filter
          (fun s => decide (s.level ≤ level))).map (fun s => (s.fn, s.fd))) ∧
      ∀ c ∈ logger_log now logger level file line fmt args, 2 ≤ c.slot.val := by
  obtain ⟨logger, hc, hsinks⟩ := create_logger_sinks_eq fopen config hopen
  have hnot : ¬ config.level ≤ level := Nat.not_le.mpr hlevel
  refine ⟨logger, hc, ?_, ?_⟩
  · rw [invoked_logger_log]
    unfold firing_in_order
    rw [List.take_of_length_le (sinks_length_le logger), hsinks]
    unfold config_registration
    cases hname : config.filename <;> cases hq : config.quiet <;>
      simp [List.filter_cons, hnot]
  · intro c hmem
    obtain ⟨hfn, hle, _⟩ := mem_logger_log now logger level file line fmt args c hmem
    by_contra hlt
    rw [create_logger_eq] at hc
    have hlow : (logger.callbacks c.slot).fn = none ∨
        (logger.callbacks c.slot).level = config.level := by
      cases hname : config.filename with
      | none =>
        rw [hname] at hc
        cases hc
        simp only [memcpy_callbacks, hlt, dite_false]
        cases hq : config.quiet with
        | true => left; rfl
        | false =>
          simp only [Bool.false_eq_true, if_false, Function.update, terminal_sink]
          by_cases h0 : c.slot = 0
          · right; simp [h0]
          · left; simp [h0, LogCallback.zero]
      | some name =>
        rw [hname] at hc
        dsimp only at hc
        cases hfd : fopen name with
        | none => exact absurd hfd (hopen name hname)
        | some fd =>
          simp only [hfd] at hc
          cases hc
          simp only [memcpy_callbacks, hlt, dite_false]
          cases hq : config.quiet with
          | true =>
            simp only [if_true, Function.update, file_sink]
            by_cases h0 : c.slot = 0
            · right; simp [h0]
            · left; simp [h0, LogCallback.zero]
          | false =>
            simp only [Bool.false_eq_true, if_false, Function.update, file_sink, terminal_sink]
            by_cases h1 : c.slot = 1
            · right; simp [h1]
            · by_cases h0 : c.slot = 0
              · right; simp [h0, h1]
              · left; simp [h0, h1, LogCallback.zero]
    rcases hlow with h | h
    · rw [h] at hfn
      cases hfn
    · rw [h] at hle
      exact hnot hle

/-- Witness for C14 (amended): `floor_example` and an `INFO` event. -/
theorem logger_floor_implicit_sinks_witness :
    (∀ name, floor_example.filename = some name → (fun _ => none : String → Option FILE) name ≠
      none) ∧
    LogLevel.INFO < floor_example.level ∧
    ∃ logger, create_logger (fun _ => none) floor_example = some logger ∧
      invoked (logger_log ⟨0, 0, 12, 1, 0, 124⟩ logger LogLevel.INFO "main.c" 48 "Info log"
          []) =
        ((((List.ofFn floor_example.callbacks).filter (fun c => c.fn.isSome)).filter
          (fun s => decide (s.level ≤ LogLevel.INFO))).map (fun s => (s.fn, s.fd))) ∧
      ∀ c ∈ logger_log ⟨0, 0, 12, 1, 0, 124⟩ logger LogLevel.INFO "main.c" 48 "Info log" [],
        2 ≤ c.slot.val :=
  ⟨fun _ h => Option.noConfusion h, by decide,
    logger_floor_implicit_sinks (fun _ => none) floor_example
      (fun _ h => Option.noConfusion h) ⟨0, 0, 12, 1, 0, 124⟩ LogLevel.INFO (by decide) "main.c"
      48 "Info log" []⟩

/-- C15, counterexample: the custom sink of `pair_logger` has threshold `ERROR`, and an event
of level `ERROR` (so `L1 ≤ L2` with `L1 = L2`) invokes it. -/
theorem threshold_equal_counterexample :
    (pair_logger.callbacks 1).fn = some (LogCallbackFn.custom 2) ∧
    (pair_logger.callbacks 1).level = LogLevel.ERROR ∧
    LogLevel.ERROR ≤ (pair_logger.callbacks 1).level ∧
    (logger_log ⟨0, 0, 12, 1, 0, 124⟩ pair_logger LogLevel.ERROR "example.c" 11 "Error log"
        []).filter (fun c => decide (c.slot = 1)) = [pair_call_custom] ∧
    (logger_log ⟨0, 0, 12, 1, 0, 124⟩ pair_logger LogLevel.ERROR "example.c" 11 "Error log"
        []).filter (fun c => decide (c.slot = 1)) ≠ [] :=
  ⟨rfl, rfl, by decide, rfl, fun h => List.noConfusion h⟩

/-- C15, amended: for a registered sink with threshold `L2`, `logger_log` makes no call of it
for an event of any level `L < L2`, and exactly one call of it for an event of any level
`L ≥ L2`; the two halves hold separately, for every threshold. -/
theorem sink_threshold_filtering (now : Tm) (logger : Logger) (i : Fin LOG_MAX_CALLBACKS)
    (f : LogCallbackFn) (hf : (logger.callbacks i).fn = some f) (L : LogLevel)
    (file : String) (line : Int) (fmt : String) (args : VaList) :
    (L < (logger.callbacks i).level →
      (logger_log now logger L file line fmt args).filter (fun c => decide (c.slot = i)) =
        []) ∧
    ((logger.callbacks i).level ≤ L →
      (logger_log now logger L file line fmt args).filter (fun c => decide (c.slot = i)) =
        [⟨i, f, entry_for now logger L file line fmt args (logger.callbacks i)⟩]) := by
  constructor
  · intro hlt
    rw [slot_calls_eq]
    simp only [call_at, hf, entry_for, hlt, if_true, Option.toList]
  · intro hge
    have hnot : ¬ L < (logger.callbacks i).level := Nat.not_lt.mpr hge
    rw [slot_calls_eq]
    simp only [call_at, hf, entry_for, hnot, if_false, Option.toList]

/-- Witness for C15 (amended): the sink of the default logger (threshold `DEBUG`) is invoked
for a `DEBUG` event; the custom sink of `pair_logger` (threshold `ERROR`) is not invoked
for an `INFO` event and is invoked for a `FATAL` event. -/
theorem sink_threshold_filtering_witness :
    ((create_default_logger.callbacks 0).fn =
        some LogCallbackFn.logger_write_to_terminal_callback_fn ∧
      (create_default_logger.callbacks 0).level ≤ LogLevel.DEBUG ∧
      (logger_log ⟨0, 0, 12, 1, 0, 124⟩ create_default_logger LogLevel.DEBUG "example.c" 8
          "Debug log" []).filter (fun c => decide (c.slot = 0)) =
        [⟨0, LogCallbackFn.logger_write_to_terminal_callback_fn,
          entry_for ⟨0, 0, 12, 1, 0, 124⟩ create_default_logger LogLevel.DEBUG "example.c" 8
            "Debug log" [] (create_default_logger.callbacks 0)⟩]) ∧
    ((pair_logger.callbacks 1).fn = some (LogCallbackFn.custom 2) ∧
      LogLevel.INFO < (pair_logger.callbacks 1).level ∧
      (pair_logger.callbacks 1).level ≤ LogLevel.FATAL ∧
      (logger_log ⟨0, 0, 12, 1, 0, 124⟩ pair_logger LogLevel.INFO "example.c" 9 "log"
          []).filter (fun c => decide (c.slot = 1)) = [] ∧
      (logger_log ⟨0, 0, 12, 1, 0, 124⟩ pair_logger LogLevel.FATAL "example.c" 9 "log"
          []).filter (fun c => decide (c.slot = 1)) =
        [⟨1, LogCallbackFn.custom 2,
          entry_for ⟨0, 0, 12, 1, 0, 124⟩ pair_logger LogLevel.FATAL "example.c" 9 "log" []
            (pair_logger.callbacks 1)⟩]) :=
  ⟨⟨rfl, by decide,
      (sink_threshold_filtering ⟨0, 0, 12, 1, 0, 124⟩ create_default_logger 0
        LogCallbackFn.logger_write_to_terminal_callback_fn rfl LogLevel.DEBUG "example.c" 8
        "Debug log" []).2 (by decide)⟩,
    ⟨rfl, by decide, by decide,
      (sink_threshold_filtering ⟨0, 0, 12, 1, 0, 124⟩ pair_logger 1 (LogCallbackFn.custom 2) rfl
        LogLevel.INFO "example.c" 9 "log" []).1 (by decide),
      (sink_threshold_filtering ⟨0, 0, 12, 1, 0, 124⟩ pair_logger 1 (LogCallbackFn.custom 2) rfl
        LogLevel.FATAL "example.c" 9 "log" []).2 (by decide)⟩⟩

/-- C16: the text `logger_write_to_file_callback_fn` writes is the spec line
`<timestamp> <LEVEL> <file>:<line> <message>[ key=value]*` plus newline, with the formatted
timestamp and message taken from libc, the attributes with key and value set in slot order,
and `<LEVEL>` the level name padded to 5 characters; the terminal renderer without
`LOG_USE_COLOR` writes the same line shape with its own timestamp. -/
theorem file_line_format (libc : Libc) (entry : LogEntry) :
    logger_write_to_file_callback_fn libc entry =
      spec_line (strftime_buf libc 64 "%Y-%m-%d %H:%M:%S" entry.time) entry.level entry.file
        entry.line (libc.vfprintf entry.fmt entry.args) entry.attrs ∧
    logger_write_to_terminal_callback_fn libc false entry =
      spec_line (strftime_buf libc 16 "%H:%M:%S" entry.time) entry.level entry.file
        entry.line (libc.vfprintf entry.fmt entry.args) entry.attrs ∧
    (∀ level, fmt_s_left5 (log_level_to_string level) = spec_level_token level ∧
      (spec_level_token level).length = 5) := by
  refine ⟨?_, ?_, fun level => ⟨fmt_s_left5_level level, by cases level <;> decide⟩⟩
  · simp only [logger_write_to_file_callback_fn, spec_line, write_attrs_eq_spec,
      fmt_s_left5_level, fmt_d, List.ofFn_eq_map, String.append_assoc]
  · simp only [logger_write_to_terminal_callback_fn, spec_line, write_attrs_eq_spec,
      fmt_s_left5_level, fmt_d, List.ofFn_eq_map, String.append_assoc, Bool.false_eq_true,
      if_false]

/-- C17: for levels `L ≤ L2` the sinks `logger_log` invokes at `L` (slot, render function,
handle) form a sublist of those it invokes at `L2`; a `FATAL` event invokes every occupied
sink; and no call of `logger_log` makes more than `LOG_MAX_CALLBACKS = 10` sink calls. -/
theorem filtering_monotone (now now2 : Tm) (logger : Logger) (L L2 : LogLevel) (hle : L ≤ L2)
    (file file2 : String) (line line2 : Int) (fmt fmt2 : String) (args args2 : VaList) :
    ((logger_log now logger L file line fmt args).map
        (fun c => (c.slot, c.fn, c.entry.fd))).Sublist
      ((logger_log now2 logger L2 file2 line2 fmt2 args2).map
        (fun c => (c.slot, c.fn, c.entry.fd))) ∧
    invoked (logger_log now logger LogLevel.FATAL file line fmt args) =
      logger.sinks.map (fun s => (s.fn, s.fd)) ∧
    (logger_log now logger L file line fmt args).length ≤ LOG_MAX_CALLBACKS ∧
    LOG_MAX_CALLBACKS = 10 := by
  refine ⟨?_, ?_, logger_log_length_le _ _ _ _ _ _ _, rfl⟩
  · unfold logger_log
    simp only [logger_log_loop_eq_filterMap, List.map_filterMap]
    apply filterMap_sublist_of_imp
    intro i b hb
    unfold call_at at hb ⊢
    cases hfn : (logger.callbacks i).fn with
    | none => simp [hfn] at hb
    | some f =>
      simp only [hfn] at hb ⊢
      by_cases hlt : L < (logger.callbacks i).level
      · simp [hlt] at hb
      · have hlt2 : ¬ L2 < (logger.callbacks i).level :=
          Nat.not_lt.mpr (le_trans (Nat.not_lt.mp hlt) hle)
        simp only [hlt, hlt2, if_false, Option.map_some, Option.some.injEq] at hb ⊢
        exact hb
  · rw [invoked_logger_log]
    unfold firing_in_order
    rw [List.take_of_length_le (sinks_length_le logger)]
    congr 1
    rw [List.filter_eq_self]
    intro s _
    cases hs : s.level <;> decide

/-- Witness for C17: `pair_logger` at levels `INFO ≤ ERROR`. -/
theorem filtering_monotone_witness :
    LogLevel.INFO ≤ LogLevel.ERROR ∧
    (((logger_log ⟨0, 0, 12, 1, 0, 124⟩ pair_logger LogLevel.INFO "example.c" 9 "Info log"
        []).map (fun c => (c.slot, c.fn, c.entry.fd))).Sublist
      ((logger_log ⟨1, 0, 12, 1, 0, 124⟩ pair_logger LogLevel.ERROR "example.c" 11 "Error log"
        []).map (fun c => (c.slot, c.fn, c.entry.fd))) ∧
    invoked (logger_log ⟨0, 0, 12, 1, 0, 124⟩ pair_logger LogLevel.FATAL "example.c" 9
        "Info log" []) = pair_logger.sinks.map (fun s => (s.fn, s.fd)) ∧
    (logger_log ⟨0, 0, 12, 1, 0, 124⟩ pair_logger LogLevel.INFO "example.c" 9 "Info log"
      []).length ≤ LOG_MAX_CALLBACKS ∧
    LOG_MAX_CALLBACKS = 10) :=
  ⟨by decide,
    filtering_monotone ⟨0, 0, 12, 1, 0, 124⟩ ⟨1, 0, 12, 1, 0, 124⟩ pair_logger LogLevel.INFO
      LogLevel.ERROR (by decide) "example.c" "example.c" 9 11 "Info log" "Error log" [] []⟩

end LogLib
